import Mathlib

/-!
Verification of the road-corridor geometry kernel (alignment fillets, grade
profile evaluation, daylight root search, corridor cross-section elevations,
end-area volumes).  Pure numeric kernels that the source computes with plain
arithmetic and comparisons are embedded over `ℚ`; the parts that genuinely
use square roots and trigonometry (distances, normalisation, arc-corner
construction) are embedded over `ℝ` in a later section.  JavaScript floating
point numbers are idealised as exact rationals/reals throughout.
-/

namespace Civil

/-- JS `Math.sign` on rationals: `-1`, `0` or `1`. -/
def signQ (x : ℚ) : ℚ := if x < 0 then -1 else if 0 < x then 1 else 0

/-- JS `Math.sign(x) || 1`: the zero result is replaced by `1`. -/
def signOr1 (x : ℚ) : ℚ := if signQ x = 0 then 1 else signQ x

/-- THREE.MathUtils.lerp: `(1 - t) * x + t * y`. -/
def lerpQ (x y t : ℚ) : ℚ := (1 - t) * x + t * y

@[simp] lemma signQ_neg_two : signQ (-2) = -1 := by decide

@[simp] lemma signOr1_neg_two : signOr1 (-2) = -1 := by decide

/-! ### Grade profile evaluation (`evalCenterZ` in roadway.ts) -/

/-- A grade control point: chainage `s` and elevation `z`. -/
structure GP where
  s : ℚ
  z : ℚ
deriving DecidableEq, Repr

/-- Stable insertion, modelling one step of JS `Array.prototype.sort`
with comparator `(a, b) => a.s - b.s` (ES2019 sort is stable). -/
def insertGP (x : GP) : List GP → List GP
  | [] => [x]
  | y :: ys => if x.s ≤ y.s then x :: y :: ys else y :: insertGP x ys

/-- Stable sort by chainage, modelling `[...gradeProfile].sort((a, b) => a.s - b.s)`. -/
def sortByS : List GP → List GP
  | [] => []
  | x :: xs => insertGP x (sortByS xs)

/-- The bracketing-pair scan inside `evalCenterZ`: walk consecutive pairs and
return the interpolated elevation of the first pair `(a, b)` with
`a.s ≤ s ≤ b.s`, using the `max(1e-9, b.s - a.s)` denominator guard. -/
def scanSeg (sChain : ℚ) : List GP → Option ℚ
  | a :: b :: rest =>
      if a.s ≤ sChain ∧ sChain ≤ b.s then
        some (lerpQ a.z b.z ((sChain - a.s) / max (1 / 10 ^ 9) (b.s - a.s)))
      else scanSeg sChain (b :: rest)
  | _ => none

/-- The body of `evalCenterZ` on the sorted profile: clamp at the first and
last control points, otherwise scan for the bracketing pair. -/
def evalSorted (sChain : ℚ) : List GP → Option ℚ
  | [] => none
  | a :: rest =>
      if sChain ≤ a.s then some a.z
      else
        let lastP := (a :: rest).getLast (by simp)
        if lastP.s ≤ sChain then some lastP.z
        else scanSeg sChain (a :: rest)

/-- `evalCenterZ` from roadway.ts: with at least two grade control points,
sort by chainage, clamp at the endpoints, otherwise linearly interpolate in
the bracketing pair; with fewer than two points (or if the scan falls
through) fall back to the straight two-IP profile
`lerp(zStart, zEnd, sChain / totalLength)` with `t = 0` when the total
length is not positive. -/
def evalCenterZ (gradeProfile : List GP) (zStart zEnd totalLength : ℚ) (sChain : ℚ) : ℚ :=
  (if 2 ≤ gradeProfile.length then evalSorted sChain (sortByS gradeProfile) else none).getD
    (lerpQ zStart zEnd (if 0 < totalLength then sChain / totalLength else 0))

/-! ### Daylight root search (`findDaylightIntersection` in roadway.ts) -/

/-- State of the outward march: bracket `[s0, s1]` with cached values
`f0 = f s0`, `f1 = f s1`. -/
structure MarchState where
  s0 : ℚ
  f0 : ℚ
  s1 : ℚ
  f1 : ℚ
deriving DecidableEq, Repr

/-- One iteration of the march loop body:
`s0 = s1; f0 = f1; s1 = min(maxDistance, s1 + step); f1 = f(s1)`
with `maxDistance = 200` and `step = 2`. -/
def marchStep (f : ℚ → ℚ) (st : MarchState) : MarchState :=
  let s1' := min 200 (st.s1 + 2)
  ⟨st.s1, st.f1, s1', f s1'⟩

/-- The march `while (Math.sign(f0) === Math.sign(f1) && s1 < maxDistance)`
loop, written with explicit fuel; `marchAux_exits` below shows the fuel of
`marchRun` is never exhausted, so this is exactly the source's while loop. -/
def marchAux (f : ℚ → ℚ) : ℕ → MarchState → MarchState
  | 0, st => st
  | n + 1, st =>
      if signQ st.f0 = signQ st.f1 ∧ st.s1 < 200 then marchAux f n (marchStep f st) else st

/-- Initial march state: `s0 = 0`, `f0 = f 0` (the source writes
`startZ - heightFn(start)`, which equals `f 0` since `dz * 0 = 0`),
`s1 = 2`, `f1 = f 2`. -/
def marchInit (f : ℚ → ℚ) : MarchState := ⟨0, f 0, 2, f 2⟩

/-- The full outward march of `findDaylightIntersection`. -/
def marchRun (f : ℚ → ℚ) : MarchState := marchAux f 100 (marchInit f)

/-- State of the bisection refinement: bracket `[a, b]` with cached values. -/
structure BisectState where
  a : ℚ
  fa : ℚ
  b : ℚ
  fb : ℚ
deriving DecidableEq, Repr

/-- One bisection iteration: move whichever endpoint has the same sign as
the midpoint value to the midpoint. -/
def bisectStep (f : ℚ → ℚ) (st : BisectState) : BisectState :=
  let m := (st.a + st.b) / 2
  let fm := f m
  if signQ st.fa = signQ fm then ⟨m, fm, st.b, st.fb⟩ else ⟨st.a, st.fa, m, fm⟩

/-- The source's fixed `for (let i = 0; i < 24; i++)` bisection loop. -/
def bisectRun (f : ℚ → ℚ) (st : BisectState) : BisectState := (bisectStep f)^[24] st

/-- The returned distance `sStar` of `findDaylightIntersection`, as a function
of the one-dimensional root function `f`. -/
def daylightS (f : ℚ → ℚ) : ℚ :=
  let st := marchRun f
  if signQ st.f0 = signQ st.f1 then st.s1
  else
    let bs := bisectRun f ⟨st.s0, st.f0, st.s1, st.f1⟩
    (bs.a + bs.b) / 2

/-- The root function `f(s) = (startZ + dzPerMeter * s) - heightFn(start + dir * s)`
named in the source comment of `findDaylightIntersection`. -/
def fRay (startXY : ℚ × ℚ) (startZ : ℚ) (dirXY : ℚ × ℚ) (dzPerMeter : ℚ)
    (heightFn : ℚ → ℚ → ℚ) (s : ℚ) : ℚ :=
  (startZ + dzPerMeter * s) - heightFn (startXY.1 + dirXY.1 * s) (startXY.2 + dirXY.2 * s)

/-- Result record of `findDaylightIntersection`. -/
structure DaylightResult where
  x : ℚ
  y : ℚ
  z : ℚ
  s : ℚ
deriving DecidableEq, Repr

/-- `findDaylightIntersection` from roadway.ts: march outward in steps of 2 up
to 200, bisect 24 times on the first sign change, and return the point at the
resulting distance with `z` re-sampled from the terrain. -/
def findDaylightIntersection (startXY : ℚ × ℚ) (startZ : ℚ) (dirXY : ℚ × ℚ)
    (dzPerMeter : ℚ) (heightFn : ℚ → ℚ → ℚ) : DaylightResult :=
  let sStar := daylightS (fRay startXY startZ dirXY dzPerMeter heightFn)
  let x := startXY.1 + dirXY.1 * sStar
  let y := startXY.2 + dirXY.2 * sStar
  ⟨x, y, heightFn x y, sStar⟩

/-! ### Per-station daylight edges (`createDaylightMeshFromTwoIPs` in roadway.ts) -/

/-- The cross-section template fields consumed by the daylight mesh builder
(after the `components ?? flat-field ?? default` resolution in the source). -/
structure DayTemplate where
  laneWidth : ℚ
  crossfallLane : ℚ
  kerbW : ℚ
  kerbH : ℚ
  footW : ℚ
  xfallFoot : ℚ
  kerbEnabled : Bool
  footEnabled : Bool
deriving DecidableEq, Repr

/-- Everything `createDaylightMeshFromTwoIPs` computes for one station
(centre `c`, unit left normal `n`, centre elevation `zCenter`). -/
structure StationDaylight where
  oLastL : ℚ
  oLastR : ℚ
  zLeftEdge : ℚ
  zRightEdge : ℚ
  signL : ℚ
  signR : ℚ
  dzdsL : ℚ
  dzdsR : ℚ
  dl : DaylightResult
  dr : DaylightResult
deriving DecidableEq, Repr

/-- The per-station body of `createDaylightMeshFromTwoIPs` (roadway.ts lines
517-545): outer-edge offsets and elevations of the last enabled component on
each side, the cut/fill sign choice `Math.sign(zSurf - zEdge) || 1`, the slope
`dz/ds = sign / max(1e-6, slopeHtoV)`, and the two daylight searches. -/
def daylightStation (c n : ℚ × ℚ) (zCenter : ℚ) (tpl : DayTemplate) (slopeHtoV : ℚ)
    (heightFn : ℚ → ℚ → ℚ) : StationDaylight :=
  let half := tpl.laneWidth
  let oPavL := -half
  let oPavR := half
  let zPavL := zCenter + (tpl.crossfallLane * signQ oPavL) * oPavL
  let zPavR := zCenter + (tpl.crossfallLane * signQ oPavR) * oPavR
  let zKerbTopL := zPavL + (if tpl.kerbEnabled then tpl.kerbH else 0)
  let zKerbTopR := zPavR + (if tpl.kerbEnabled then tpl.kerbH else 0)
  let oLastL := if tpl.footEnabled then -(half + tpl.kerbW + tpl.footW)
    else if tpl.kerbEnabled then -(half + tpl.kerbW) else -half
  let oLastR := if tpl.footEnabled then half + tpl.kerbW + tpl.footW
    else if tpl.kerbEnabled then half + tpl.kerbW else half
  let leftEdgeXY := (c.1 + n.1 * oLastL, c.2 + n.2 * oLastL)
  let rightEdgeXY := (c.1 + n.1 * oLastR, c.2 + n.2 * oLastR)
  let zLeftEdge := if tpl.footEnabled then zKerbTopL + (tpl.xfallFoot * (-1)) * tpl.footW
    else if tpl.kerbEnabled then zKerbTopL else zPavL
  let zRightEdge := if tpl.footEnabled then zKerbTopR + (tpl.xfallFoot * 1) * tpl.footW
    else if tpl.kerbEnabled then zKerbTopR else zPavR
  let signL := signOr1 (heightFn leftEdgeXY.1 leftEdgeXY.2 - zLeftEdge)
  let signR := signOr1 (heightFn rightEdgeXY.1 rightEdgeXY.2 - zRightEdge)
  let dzds := 1 / max (1 / 10 ^ 6) slopeHtoV
  let dzdsL := signL * dzds
  let dzdsR := signR * dzds
  let dirLeft := (-n.1, -n.2)
  let dirRight := n
  let dl := findDaylightIntersection leftEdgeXY zLeftEdge dirLeft dzdsL heightFn
  let dr := findDaylightIntersection rightEdgeXY zRightEdge dirRight dzdsR heightFn
  ⟨oLastL, oLastR, zLeftEdge, zRightEdge, signL, signR, dzdsL, dzdsR, dl, dr⟩

/-! ### Corridor kerb and footpath tops (`createCorridorFromTwoIPs` in roadway.ts) -/

/-- The corridor builder's `slopeAt`: both branches of the source's
conditional are `template.crossfallLane`, multiplied by the side sign. -/
def slopeAtCorr (laneW crossfallLane offset : ℚ) : ℚ :=
  (if |offset| ≤ laneW then crossfallLane else crossfallLane) * signQ offset

/-- The `kerbTop` row function of `createCorridorFromTwoIPs` (roadway.ts lines
757-763): top elevations `[zInner, zOuterTop]` of the kerb strip at one
station, for side sign `±1`, given the centre elevation `zc`. -/
def kerbTop (zc laneW crossfallLane kerbH sideSign : ℚ) : ℚ × ℚ :=
  let oInner := sideSign * laneW
  let zInner := zc + slopeAtCorr laneW crossfallLane oInner * oInner
  (zInner, zInner + kerbH)

/-- The `footTop` row function of `createCorridorFromTwoIPs` (roadway.ts lines
775-782): `(zInner, zOuter)` of the footpath strip at one station. -/
def footTop (zc laneW crossfallLane kerbH xfallFoot footW sideSign : ℚ) : ℚ × ℚ :=
  let oKerbInner := sideSign * laneW
  let zPavEdge := zc + slopeAtCorr laneW crossfallLane oKerbInner * oKerbInner
  let zKerbTop := zPavEdge + kerbH
  (zKerbTop, zKerbTop + (xfallFoot * sideSign) * footW)

/-! ### March and bisection invariants -/

/-- Well-formedness invariant of the march state: bracket inside `[0, 200]`,
bracket width at most one step, cached values consistent with `f`. -/
def MarchInv (f : ℚ → ℚ) (st : MarchState) : Prop :=
  0 ≤ st.s0 ∧ st.s0 ≤ st.s1 ∧ st.s1 ≤ 200 ∧ st.s1 - st.s0 ≤ 2 ∧
    st.f0 = f st.s0 ∧ st.f1 = f st.s1

@[simp] lemma marchStep_s0 (f : ℚ → ℚ) (st : MarchState) : (marchStep f st).s0 = st.s1 := rfl

@[simp] lemma marchStep_f0 (f : ℚ → ℚ) (st : MarchState) : (marchStep f st).f0 = st.f1 := rfl

@[simp] lemma marchStep_s1 (f : ℚ → ℚ) (st : MarchState) :
    (marchStep f st).s1 = min 200 (st.s1 + 2) := rfl

@[simp] lemma marchStep_f1 (f : ℚ → ℚ) (st : MarchState) :
    (marchStep f st).f1 = f (min 200 (st.s1 + 2)) := rfl

lemma marchStep_inv {f : ℚ → ℚ} {st : MarchState} (h : MarchInv f st) :
    MarchInv f (marchStep f st) := by
  obtain ⟨h0, h01, h1, hw, hf0, hf1⟩ := h
  refine ⟨?_, ?_, ?_, ?_, ?_, ?_⟩
  · simp only [marchStep_s0]; linarith
  · simp only [marchStep_s0, marchStep_s1]; exact le_min h1 (by linarith)
  · simp only [marchStep_s1]; exact min_le_left _ _
  · simp only [marchStep_s0, marchStep_s1]; linarith [min_le_right (200 : ℚ) (st.s1 + 2)]
  · simp only [marchStep_f0, marchStep_s0]; exact hf1
  · simp only [marchStep_f1, marchStep_s1]

lemma marchAux_inv {f : ℚ → ℚ} (n : ℕ) {st : MarchState} (h : MarchInv f st) :
    MarchInv f (marchAux f n st) := by
  induction n generalizing st with
  | zero => exact h
  | succ n ih =>
      simp only [marchAux]
      split
      · exact ih (marchStep_inv h)
      · exact h

lemma marchInit_inv (f : ℚ → ℚ) : MarchInv f (marchInit f) := by
  refine ⟨le_refl 0, ?_, ?_, ?_, rfl, rfl⟩
  · show (0 : ℚ) ≤ 2; norm_num
  · show (2 : ℚ) ≤ 200; norm_num
  · show (2 : ℚ) - 0 ≤ 2; norm_num

lemma marchRun_inv (f : ℚ → ℚ) : MarchInv f (marchRun f) :=
  marchAux_inv 100 (marchInit_inv f)

/-- With enough fuel for the remaining distance, the march loop exits by its
own condition, never by fuel exhaustion. -/
lemma marchAux_exits {f : ℚ → ℚ} (n : ℕ) (st : MarchState)
    (h : (200 : ℚ) ≤ st.s1 + 2 * n) :
    ¬(signQ (marchAux f n st).f0 = signQ (marchAux f n st).f1 ∧
        (marchAux f n st).s1 < 200) := by
  induction n generalizing st with
  | zero =>
      simp only [marchAux]
      rintro ⟨-, hlt⟩
      simp only [Nat.cast_zero, mul_zero, add_zero] at h
      linarith
  | succ n ih =>
      simp only [marchAux]
      split
      · apply ih
        simp only [marchStep_s1]
        have hn : (0 : ℚ) ≤ (n : ℚ) := Nat.cast_nonneg n
        push_cast at h
        rcases le_total (st.s1 + 2) 200 with hle | hle
        · rw [min_eq_right hle]
          linarith
        · rw [min_eq_left hle]
          linarith
      · rename_i hcond
        exact hcond

/-- Bisection invariant: bracket inside `[lo, hi]`, cached values consistent,
endpoint signs distinct. -/
def BisInv (f : ℚ → ℚ) (lo hi : ℚ) (st : BisectState) : Prop :=
  lo ≤ st.a ∧ st.a ≤ st.b ∧ st.b ≤ hi ∧ st.fa = f st.a ∧ st.fb = f st.b ∧
    signQ st.fa ≠ signQ st.fb

lemma bisectStep_inv {f : ℚ → ℚ} {lo hi : ℚ} {st : BisectState}
    (h : BisInv f lo hi st) : BisInv f lo hi (bisectStep f st) := by
  obtain ⟨hlo, hab, hhi, hfa, hfb, hsign⟩ := h
  simp only [bisectStep]
  split
  · rename_i hm
    exact ⟨by linarith, by linarith, hhi, rfl, hfb, fun hc => hsign (hm ▸ hc)⟩
  · rename_i hm
    exact ⟨hlo, by linarith, by linarith, hfa, rfl, hm⟩

lemma bisectIter_inv {f : ℚ → ℚ} {lo hi : ℚ} (n : ℕ) {st : BisectState}
    (h : BisInv f lo hi st) : BisInv f lo hi ((bisectStep f)^[n] st) := by
  induction n with
  | zero => exact h
  | succ n ih => rw [Function.iterate_succ_apply']; exact bisectStep_inv ih

/-- Each bisection iteration exactly halves the bracket width. -/
lemma bisectStep_width (f : ℚ → ℚ) (st : BisectState) :
    (bisectStep f st).b - (bisectStep f st).a = (st.b - st.a) / 2 := by
  simp only [bisectStep]
  split <;> ring

lemma bisectIter_width (f : ℚ → ℚ) (n : ℕ) (st : BisectState) :
    ((bisectStep f)^[n] st).b - ((bisectStep f)^[n] st).a = (st.b - st.a) / 2 ^ n := by
  induction n with
  | zero => simp
  | succ n ih =>
      rw [Function.iterate_succ_apply', bisectStep_width, ih]
      ring

/-! ### Step-by-step evaluation lemmas for concrete root searches -/

lemma marchAux_succ (f : ℚ → ℚ) (n : ℕ) (st : MarchState) :
    marchAux f (n + 1) st =
      if signQ st.f0 = signQ st.f1 ∧ st.s1 < 200 then marchAux f n (marchStep f st)
      else st := rfl

lemma marchAux_go (f : ℚ → ℚ) (n : ℕ) (st st' : MarchState)
    (hcond : signQ st.f0 = signQ st.f1 ∧ st.s1 < 200)
    (hstep : marchStep f st = st') :
    marchAux f (n + 1) st = marchAux f n st' := by
  rw [marchAux_succ, if_pos hcond, hstep]

lemma marchAux_stop (f : ℚ → ℚ) (n : ℕ) (st : MarchState)
    (hcond : ¬(signQ st.f0 = signQ st.f1 ∧ st.s1 < 200)) :
    marchAux f (n + 1) st = st := by
  rw [marchAux_succ, if_neg hcond]

lemma iterate_succ_eval {α : Type} (g : α → α) (n : ℕ) (x y : α) (h : g x = y) :
    g^[n + 1] x = g^[n] y := by
  rw [Function.iterate_succ_apply, h]

lemma bisectRun_eq (f : ℚ → ℚ) (st : BisectState) :
    bisectRun f st = (bisectStep f)^[24] st := rfl

lemma daylightS_of_march {f : ℚ → ℚ} {st : MarchState} (hm : marchRun f = st) :
    daylightS f =
      if signQ st.f0 = signQ st.f1 then st.s1
      else ((bisectRun f ⟨st.s0, st.f0, st.s1, st.f1⟩).a +
            (bisectRun f ⟨st.s0, st.f0, st.s1, st.f1⟩).b) / 2 := by
  subst hm; rfl

/-! ### Concrete root functions appearing in the scenario and counterexample proofs -/

/-- The ray function of Scenario D: start elevation 2 above a flat terrain
(normalised to terrain 0), slope `dz/ds = -1/2`. -/
def g5 : ℚ → ℚ := fun s => 2 + -(1 / 2) * s

/-- The left-edge ray function of the symmetric-template station of C8. -/
def g8L : ℚ → ℚ := fun s => 417 / 200 + -(1 / 2) * s

/-- The right-edge ray function of the symmetric-template station of C8. -/
def g8R : ℚ → ℚ := fun s => 81 / 40 + -(1 / 2) * s

/-- A discontinuous terrain: a 200-unit cliff at `x = 1`. -/
def stepTerrain : ℚ → ℚ → ℚ := fun x _ => if x < 1 then -100 else 100

/-- The ray function over `stepTerrain` from the origin with zero design slope. -/
def gc3 : ℚ → ℚ := fun s => -stepTerrain s 0

lemma march_g5 : marchRun g5 = (⟨2, 1, 4, 0⟩ : MarchState) := by
  rw [marchRun, show marchInit g5 = (⟨0, 2, 2, 1⟩ : MarchState) from by norm_num [marchInit, g5]]
  rw [show (100 : ℕ) = 99 + 1 from rfl,
    marchAux_go _ 99 (⟨0, 2, 2, 1⟩ : MarchState) (⟨2, 1, 4, 0⟩ : MarchState)
      (by norm_num [signQ]) (by norm_num [marchStep, min_def, g5])]
  rw [show (99 : ℕ) = 98 + 1 from rfl,
    marchAux_stop _ 98 (⟨2, 1, 4, 0⟩ : MarchState) (by norm_num [signQ])]

lemma bisect_g5 : bisectRun g5 (⟨2, 1, 4, 0⟩ : BisectState) = (⟨(33554431/8388608), (1/16777216), 4, 0⟩ : BisectState) := by
  rw [bisectRun_eq]
  rw [iterate_succ_eval _ 23 (⟨2, 1, 4, 0⟩ : BisectState) (⟨3, (1/2), 4, 0⟩ : BisectState)
    (by norm_num [bisectStep, signQ, g5])]
  rw [iterate_succ_eval _ 22 (⟨3, (1/2), 4, 0⟩ : BisectState) (⟨(7/2), (1/4), 4, 0⟩ : BisectState)
    (by norm_num [bisectStep, signQ, g5])]
  rw [iterate_succ_eval _ 21 (⟨(7/2), (1/4), 4, 0⟩ : BisectState) (⟨(15/4), (1/8), 4, 0⟩ : BisectState)
    (by norm_num [bisectStep, signQ, g5])]
  rw [iterate_succ_eval _ 20 (⟨(15/4), (1/8), 4, 0⟩ : BisectState) (⟨(31/8), (1/16), 4, 0⟩ : BisectState)
    (by norm_num [bisectStep, signQ, g5])]
  rw [iterate_succ_eval _ 19 (⟨(31/8), (1/16), 4, 0⟩ : BisectState) (⟨(63/16), (1/32), 4, 0⟩ : BisectState)
    (by norm_num [bisectStep, signQ, g5])]
  rw [iterate_succ_eval _ 18 (⟨(63/16), (1/32), 4, 0⟩ : BisectState) (⟨(127/32), (1/64), 4, 0⟩ : BisectState)
    (by norm_num [bisectStep, signQ, g5])]
  rw [iterate_succ_eval _ 17 (⟨(127/32), (1/64), 4, 0⟩ : BisectState) (⟨(255/64), (1/128), 4, 0⟩ : BisectState)
    (by norm_num [bisectStep, signQ, g5])]
  rw [iterate_succ_eval _ 16 (⟨(255/64), (1/128), 4, 0⟩ : BisectState) (⟨(511/128), (1/256), 4, 0⟩ : BisectState)
    (by norm_num [bisectStep, signQ, g5])]
  rw [iterate_succ_eval _ 15 (⟨(511/128), (1/256), 4, 0⟩ : BisectState) (⟨(1023/256), (1/512), 4, 0⟩ : BisectState)
    (by norm_num [bisectStep, signQ, g5])]
  rw [iterate_succ_eval _ 14 (⟨(1023/256), (1/512), 4, 0⟩ : BisectState) (⟨(2047/512), (1/1024), 4, 0⟩ : BisectState)
    (by norm_num [bisectStep, signQ, g5])]
  rw [iterate_succ_eval _ 13 (⟨(2047/512), (1/1024), 4, 0⟩ : BisectState) (⟨(4095/1024), (1/2048), 4, 0⟩ : BisectState)
    (by norm_num [bisectStep, signQ, g5])]
  rw [iterate_succ_eval _ 12 (⟨(4095/1024), (1/2048), 4, 0⟩ : BisectState) (⟨(8191/2048), (1/4096), 4, 0⟩ : BisectState)
    (by norm_num [bisectStep, signQ, g5])]
  rw [iterate_succ_eval _ 11 (⟨(8191/2048), (1/4096), 4, 0⟩ : BisectState) (⟨(16383/4096), (1/8192), 4, 0⟩ : BisectState)
    (by norm_num [bisectStep, signQ, g5])]
  rw [iterate_succ_eval _ 10 (⟨(16383/4096), (1/8192), 4, 0⟩ : BisectState) (⟨(32767/8192), (1/16384), 4, 0⟩ : BisectState)
    (by norm_num [bisectStep, signQ, g5])]
  rw [iterate_succ_eval _ 9 (⟨(32767/8192), (1/16384), 4, 0⟩ : BisectState) (⟨(65535/16384), (1/32768), 4, 0⟩ : BisectState)
    (by norm_num [bisectStep, signQ, g5])]
  rw [iterate_succ_eval _ 8 (⟨(65535/16384), (1/32768), 4, 0⟩ : BisectState) (⟨(131071/32768), (1/65536), 4, 0⟩ : BisectState)
    (by norm_num [bisectStep, signQ, g5])]
  rw [iterate_succ_eval _ 7 (⟨(131071/32768), (1/65536), 4, 0⟩ : BisectState) (⟨(262143/65536), (1/131072), 4, 0⟩ : BisectState)
    (by norm_num [bisectStep, signQ, g5])]
  rw [iterate_succ_eval _ 6 (⟨(262143/65536), (1/131072), 4, 0⟩ : BisectState) (⟨(524287/131072), (1/262144), 4, 0⟩ : BisectState)
    (by norm_num [bisectStep, signQ, g5])]
  rw [iterate_succ_eval _ 5 (⟨(524287/131072), (1/262144), 4, 0⟩ : BisectState) (⟨(1048575/262144), (1/524288), 4, 0⟩ : BisectState)
    (by norm_num [bisectStep, signQ, g5])]
  rw [iterate_succ_eval _ 4 (⟨(1048575/262144), (1/524288), 4, 0⟩ : BisectState) (⟨(2097151/524288), (1/1048576), 4, 0⟩ : BisectState)
    (by norm_num [bisectStep, signQ, g5])]
  rw [iterate_succ_eval _ 3 (⟨(2097151/524288), (1/1048576), 4, 0⟩ : BisectState) (⟨(4194303/1048576), (1/2097152), 4, 0⟩ : BisectState)
    (by norm_num [bisectStep, signQ, g5])]
  rw [iterate_succ_eval _ 2 (⟨(4194303/1048576), (1/2097152), 4, 0⟩ : BisectState) (⟨(8388607/2097152), (1/4194304), 4, 0⟩ : BisectState)
    (by norm_num [bisectStep, signQ, g5])]
  rw [iterate_succ_eval _ 1 (⟨(8388607/2097152), (1/4194304), 4, 0⟩ : BisectState) (⟨(16777215/4194304), (1/8388608), 4, 0⟩ : BisectState)
    (by norm_num [bisectStep, signQ, g5])]
  rw [iterate_succ_eval _ 0 (⟨(16777215/4194304), (1/8388608), 4, 0⟩ : BisectState) (⟨(33554431/8388608), (1/16777216), 4, 0⟩ : BisectState)
    (by norm_num [bisectStep, signQ, g5])]
  rw [Function.iterate_zero_apply]

lemma daylightS_g5 : daylightS g5 = (67108863/16777216) := by
  rw [daylightS_of_march march_g5, if_neg (by norm_num [signQ])]
  show ((bisectRun g5 (⟨2, 1, 4, 0⟩ : BisectState)).a + (bisectRun g5 (⟨2, 1, 4, 0⟩ : BisectState)).b) / 2 = (67108863/16777216)
  rw [bisect_g5]
  norm_num

lemma march_g8L : marchRun g8L = (⟨4, (17/200), 6, (-183/200)⟩ : MarchState) := by
  rw [marchRun, show marchInit g8L = (⟨0, (417/200), 2, (217/200)⟩ : MarchState) from by norm_num [marchInit, g8L]]
  rw [show (100 : ℕ) = 99 + 1 from rfl,
    marchAux_go _ 99 (⟨0, (417/200), 2, (217/200)⟩ : MarchState) (⟨2, (217/200), 4, (17/200)⟩ : MarchState)
      (by norm_num [signQ]) (by norm_num [marchStep, min_def, g8L])]
  rw [show (99 : ℕ) = 98 + 1 from rfl,
    marchAux_go _ 98 (⟨2, (217/200), 4, (17/200)⟩ : MarchState) (⟨4, (17/200), 6, (-183/200)⟩ : MarchState)
      (by norm_num [signQ]) (by norm_num [marchStep, min_def, g8L])]
  rw [show (98 : ℕ) = 97 + 1 from rfl,
    marchAux_stop _ 97 (⟨4, (17/200), 6, (-183/200)⟩ : MarchState) (by norm_num [signQ])]

lemma bisect_g8L : bisectRun g8L (⟨4, (17/200), 6, (-183/200)⟩ : BisectState) = (⟨(34980495/8388608), (9/419430400), (2186281/524288), (-1/26214400)⟩ : BisectState) := by
  rw [bisectRun_eq]
  rw [iterate_succ_eval _ 23 (⟨4, (17/200), 6, (-183/200)⟩ : BisectState) (⟨4, (17/200), 5, (-83/200)⟩ : BisectState)
    (by norm_num [bisectStep, signQ, g8L])]
  rw [iterate_succ_eval _ 22 (⟨4, (17/200), 5, (-83/200)⟩ : BisectState) (⟨4, (17/200), (9/2), (-33/200)⟩ : BisectState)
    (by norm_num [bisectStep, signQ, g8L])]
  rw [iterate_succ_eval _ 21 (⟨4, (17/200), (9/2), (-33/200)⟩ : BisectState) (⟨4, (17/200), (17/4), (-1/25)⟩ : BisectState)
    (by norm_num [bisectStep, signQ, g8L])]
  rw [iterate_succ_eval _ 20 (⟨4, (17/200), (17/4), (-1/25)⟩ : BisectState) (⟨(33/8), (9/400), (17/4), (-1/25)⟩ : BisectState)
    (by norm_num [bisectStep, signQ, g8L])]
  rw [iterate_succ_eval _ 19 (⟨(33/8), (9/400), (17/4), (-1/25)⟩ : BisectState) (⟨(33/8), (9/400), (67/16), (-7/800)⟩ : BisectState)
    (by norm_num [bisectStep, signQ, g8L])]
  rw [iterate_succ_eval _ 18 (⟨(33/8), (9/400), (67/16), (-7/800)⟩ : BisectState) (⟨(133/32), (11/1600), (67/16), (-7/800)⟩ : BisectState)
    (by norm_num [bisectStep, signQ, g8L])]
  rw [iterate_succ_eval _ 17 (⟨(133/32), (11/1600), (67/16), (-7/800)⟩ : BisectState) (⟨(133/32), (11/1600), (267/64), (-3/3200)⟩ : BisectState)
    (by norm_num [bisectStep, signQ, g8L])]
  rw [iterate_succ_eval _ 16 (⟨(133/32), (11/1600), (267/64), (-3/3200)⟩ : BisectState) (⟨(533/128), (19/6400), (267/64), (-3/3200)⟩ : BisectState)
    (by norm_num [bisectStep, signQ, g8L])]
  rw [iterate_succ_eval _ 15 (⟨(533/128), (19/6400), (267/64), (-3/3200)⟩ : BisectState) (⟨(1067/256), (13/12800), (267/64), (-3/3200)⟩ : BisectState)
    (by norm_num [bisectStep, signQ, g8L])]
  rw [iterate_succ_eval _ 14 (⟨(1067/256), (13/12800), (267/64), (-3/3200)⟩ : BisectState) (⟨(2135/512), (1/25600), (267/64), (-3/3200)⟩ : BisectState)
    (by norm_num [bisectStep, signQ, g8L])]
  rw [iterate_succ_eval _ 13 (⟨(2135/512), (1/25600), (267/64), (-3/3200)⟩ : BisectState) (⟨(2135/512), (1/25600), (4271/1024), (-23/51200)⟩ : BisectState)
    (by norm_num [bisectStep, signQ, g8L])]
  rw [iterate_succ_eval _ 12 (⟨(2135/512), (1/25600), (4271/1024), (-23/51200)⟩ : BisectState) (⟨(2135/512), (1/25600), (8541/2048), (-21/102400)⟩ : BisectState)
    (by norm_num [bisectStep, signQ, g8L])]
  rw [iterate_succ_eval _ 11 (⟨(2135/512), (1/25600), (8541/2048), (-21/102400)⟩ : BisectState) (⟨(2135/512), (1/25600), (17081/4096), (-17/204800)⟩ : BisectState)
    (by norm_num [bisectStep, signQ, g8L])]
  rw [iterate_succ_eval _ 10 (⟨(2135/512), (1/25600), (17081/4096), (-17/204800)⟩ : BisectState) (⟨(2135/512), (1/25600), (34161/8192), (-9/409600)⟩ : BisectState)
    (by norm_num [bisectStep, signQ, g8L])]
  rw [iterate_succ_eval _ 9 (⟨(2135/512), (1/25600), (34161/8192), (-9/409600)⟩ : BisectState) (⟨(68321/16384), (7/819200), (34161/8192), (-9/409600)⟩ : BisectState)
    (by norm_num [bisectStep, signQ, g8L])]
  rw [iterate_succ_eval _ 8 (⟨(68321/16384), (7/819200), (34161/8192), (-9/409600)⟩ : BisectState) (⟨(68321/16384), (7/819200), (136643/32768), (-11/1638400)⟩ : BisectState)
    (by norm_num [bisectStep, signQ, g8L])]
  rw [iterate_succ_eval _ 7 (⟨(68321/16384), (7/819200), (136643/32768), (-11/1638400)⟩ : BisectState) (⟨(273285/65536), (3/3276800), (136643/32768), (-11/1638400)⟩ : BisectState)
    (by norm_num [bisectStep, signQ, g8L])]
  rw [iterate_succ_eval _ 6 (⟨(273285/65536), (3/3276800), (136643/32768), (-11/1638400)⟩ : BisectState) (⟨(273285/65536), (3/3276800), (546571/131072), (-19/6553600)⟩ : BisectState)
    (by norm_num [bisectStep, signQ, g8L])]
  rw [iterate_succ_eval _ 5 (⟨(273285/65536), (3/3276800), (546571/131072), (-19/6553600)⟩ : BisectState) (⟨(273285/65536), (3/3276800), (1093141/262144), (-13/13107200)⟩ : BisectState)
    (by norm_num [bisectStep, signQ, g8L])]
  rw [iterate_succ_eval _ 4 (⟨(273285/65536), (3/3276800), (1093141/262144), (-13/13107200)⟩ : BisectState) (⟨(273285/65536), (3/3276800), (2186281/524288), (-1/26214400)⟩ : BisectState)
    (by norm_num [bisectStep, signQ, g8L])]
  rw [iterate_succ_eval _ 3 (⟨(273285/65536), (3/3276800), (2186281/524288), (-1/26214400)⟩ : BisectState) (⟨(4372561/1048576), (23/52428800), (2186281/524288), (-1/26214400)⟩ : BisectState)
    (by norm_num [bisectStep, signQ, g8L])]
  rw [iterate_succ_eval _ 2 (⟨(4372561/1048576), (23/52428800), (2186281/524288), (-1/26214400)⟩ : BisectState) (⟨(8745123/2097152), (21/104857600), (2186281/524288), (-1/26214400)⟩ : BisectState)
    (by norm_num [bisectStep, signQ, g8L])]
  rw [iterate_succ_eval _ 1 (⟨(8745123/2097152), (21/104857600), (2186281/524288), (-1/26214400)⟩ : BisectState) (⟨(17490247/4194304), (17/209715200), (2186281/524288), (-1/26214400)⟩ : BisectState)
    (by norm_num [bisectStep, signQ, g8L])]
  rw [iterate_succ_eval _ 0 (⟨(17490247/4194304), (17/209715200), (2186281/524288), (-1/26214400)⟩ : BisectState) (⟨(34980495/8388608), (9/419430400), (2186281/524288), (-1/26214400)⟩ : BisectState)
    (by norm_num [bisectStep, signQ, g8L])]
  rw [Function.iterate_zero_apply]

lemma daylightS_g8L : daylightS g8L = (69960991/16777216) := by
  rw [daylightS_of_march march_g8L, if_neg (by norm_num [signQ])]
  show ((bisectRun g8L (⟨4, (17/200), 6, (-183/200)⟩ : BisectState)).a + (bisectRun g8L (⟨4, (17/200), 6, (-183/200)⟩ : BisectState)).b) / 2 = (69960991/16777216)
  rw [bisect_g8L]
  norm_num

lemma march_g8R : marchRun g8R = (⟨4, (1/40), 6, (-39/40)⟩ : MarchState) := by
  rw [marchRun, show marchInit g8R = (⟨0, (81/40), 2, (41/40)⟩ : MarchState) from by norm_num [marchInit, g8R]]
  rw [show (100 : ℕ) = 99 + 1 from rfl,
    marchAux_go _ 99 (⟨0, (81/40), 2, (41/40)⟩ : MarchState) (⟨2, (41/40), 4, (1/40)⟩ : MarchState)
      (by norm_num [signQ]) (by norm_num [marchStep, min_def, g8R])]
  rw [show (99 : ℕ) = 98 + 1 from rfl,
    marchAux_go _ 98 (⟨2, (41/40), 4, (1/40)⟩ : MarchState) (⟨4, (1/40), 6, (-39/40)⟩ : MarchState)
      (by norm_num [signQ]) (by norm_num [marchStep, min_def, g8R])]
  rw [show (98 : ℕ) = 97 + 1 from rfl,
    marchAux_stop _ 97 (⟨4, (1/40), 6, (-39/40)⟩ : MarchState) (by norm_num [signQ])]

lemma bisect_g8R : bisectRun g8R (⟨4, (1/40), 6, (-39/40)⟩ : BisectState) = (⟨(16986931/4194304), (1/41943040), (33973863/8388608), (-3/83886080)⟩ : BisectState) := by
  rw [bisectRun_eq]
  rw [iterate_succ_eval _ 23 (⟨4, (1/40), 6, (-39/40)⟩ : BisectState) (⟨4, (1/40), 5, (-19/40)⟩ : BisectState)
    (by norm_num [bisectStep, signQ, g8R])]
  rw [iterate_succ_eval _ 22 (⟨4, (1/40), 5, (-19/40)⟩ : BisectState) (⟨4, (1/40), (9/2), (-9/40)⟩ : BisectState)
    (by norm_num [bisectStep, signQ, g8R])]
  rw [iterate_succ_eval _ 21 (⟨4, (1/40), (9/2), (-9/40)⟩ : BisectState) (⟨4, (1/40), (17/4), (-1/10)⟩ : BisectState)
    (by norm_num [bisectStep, signQ, g8R])]
  rw [iterate_succ_eval _ 20 (⟨4, (1/40), (17/4), (-1/10)⟩ : BisectState) (⟨4, (1/40), (33/8), (-3/80)⟩ : BisectState)
    (by norm_num [bisectStep, signQ, g8R])]
  rw [iterate_succ_eval _ 19 (⟨4, (1/40), (33/8), (-3/80)⟩ : BisectState) (⟨4, (1/40), (65/16), (-1/160)⟩ : BisectState)
    (by norm_num [bisectStep, signQ, g8R])]
  rw [iterate_succ_eval _ 18 (⟨4, (1/40), (65/16), (-1/160)⟩ : BisectState) (⟨(129/32), (3/320), (65/16), (-1/160)⟩ : BisectState)
    (by norm_num [bisectStep, signQ, g8R])]
  rw [iterate_succ_eval _ 17 (⟨(129/32), (3/320), (65/16), (-1/160)⟩ : BisectState) (⟨(259/64), (1/640), (65/16), (-1/160)⟩ : BisectState)
    (by norm_num [bisectStep, signQ, g8R])]
  rw [iterate_succ_eval _ 16 (⟨(259/64), (1/640), (65/16), (-1/160)⟩ : BisectState) (⟨(259/64), (1/640), (519/128), (-3/1280)⟩ : BisectState)
    (by norm_num [bisectStep, signQ, g8R])]
  rw [iterate_succ_eval _ 15 (⟨(259/64), (1/640), (519/128), (-3/1280)⟩ : BisectState) (⟨(259/64), (1/640), (1037/256), (-1/2560)⟩ : BisectState)
    (by norm_num [bisectStep, signQ, g8R])]
  rw [iterate_succ_eval _ 14 (⟨(259/64), (1/640), (1037/256), (-1/2560)⟩ : BisectState) (⟨(2073/512), (3/5120), (1037/256), (-1/2560)⟩ : BisectState)
    (by norm_num [bisectStep, signQ, g8R])]
  rw [iterate_succ_eval _ 13 (⟨(2073/512), (3/5120), (1037/256), (-1/2560)⟩ : BisectState) (⟨(4147/1024), (1/10240), (1037/256), (-1/2560)⟩ : BisectState)
    (by norm_num [bisectStep, signQ, g8R])]
  rw [iterate_succ_eval _ 12 (⟨(4147/1024), (1/10240), (1037/256), (-1/2560)⟩ : BisectState) (⟨(4147/1024), (1/10240), (8295/2048), (-3/20480)⟩ : BisectState)
    (by norm_num [bisectStep, signQ, g8R])]
  rw [iterate_succ_eval _ 11 (⟨(4147/1024), (1/10240), (8295/2048), (-3/20480)⟩ : BisectState) (⟨(4147/1024), (1/10240), (16589/4096), (-1/40960)⟩ : BisectState)
    (by norm_num [bisectStep, signQ, g8R])]
  rw [iterate_succ_eval _ 10 (⟨(4147/1024), (1/10240), (16589/4096), (-1/40960)⟩ : BisectState) (⟨(33177/8192), (3/81920), (16589/4096), (-1/40960)⟩ : BisectState)
    (by norm_num [bisectStep, signQ, g8R])]
  rw [iterate_succ_eval _ 9 (⟨(33177/8192), (3/81920), (16589/4096), (-1/40960)⟩ : BisectState) (⟨(66355/16384), (1/163840), (16589/4096), (-1/40960)⟩ : BisectState)
    (by norm_num [bisectStep, signQ, g8R])]
  rw [iterate_succ_eval _ 8 (⟨(66355/16384), (1/163840), (16589/4096), (-1/40960)⟩ : BisectState) (⟨(66355/16384), (1/163840), (132711/32768), (-3/327680)⟩ : BisectState)
    (by norm_num [bisectStep, signQ, g8R])]
  rw [iterate_succ_eval _ 7 (⟨(66355/16384), (1/163840), (132711/32768), (-3/327680)⟩ : BisectState) (⟨(66355/16384), (1/163840), (265421/65536), (-1/655360)⟩ : BisectState)
    (by norm_num [bisectStep, signQ, g8R])]
  rw [iterate_succ_eval _ 6 (⟨(66355/16384), (1/163840), (265421/65536), (-1/655360)⟩ : BisectState) (⟨(530841/131072), (3/1310720), (265421/65536), (-1/655360)⟩ : BisectState)
    (by norm_num [bisectStep, signQ, g8R])]
  rw [iterate_succ_eval _ 5 (⟨(530841/131072), (3/1310720), (265421/65536), (-1/655360)⟩ : BisectState) (⟨(1061683/262144), (1/2621440), (265421/65536), (-1/655360)⟩ : BisectState)
    (by norm_num [bisectStep, signQ, g8R])]
  rw [iterate_succ_eval _ 4 (⟨(1061683/262144), (1/2621440), (265421/65536), (-1/655360)⟩ : BisectState) (⟨(1061683/262144), (1/2621440), (2123367/524288), (-3/5242880)⟩ : BisectState)
    (by norm_num [bisectStep, signQ, g8R])]
  rw [iterate_succ_eval _ 3 (⟨(1061683/262144), (1/2621440), (2123367/524288), (-3/5242880)⟩ : BisectState) (⟨(1061683/262144), (1/2621440), (4246733/1048576), (-1/10485760)⟩ : BisectState)
    (by norm_num [bisectStep, signQ, g8R])]
  rw [iterate_succ_eval _ 2 (⟨(1061683/262144), (1/2621440), (4246733/1048576), (-1/10485760)⟩ : BisectState) (⟨(8493465/2097152), (3/20971520), (4246733/1048576), (-1/10485760)⟩ : BisectState)
    (by norm_num [bisectStep, signQ, g8R])]
  rw [iterate_succ_eval _ 1 (⟨(8493465/2097152), (3/20971520), (4246733/1048576), (-1/10485760)⟩ : BisectState) (⟨(16986931/4194304), (1/41943040), (4246733/1048576), (-1/10485760)⟩ : BisectState)
    (by norm_num [bisectStep, signQ, g8R])]
  rw [iterate_succ_eval _ 0 (⟨(16986931/4194304), (1/41943040), (4246733/1048576), (-1/10485760)⟩ : BisectState) (⟨(16986931/4194304), (1/41943040), (33973863/8388608), (-3/83886080)⟩ : BisectState)
    (by norm_num [bisectStep, signQ, g8R])]
  rw [Function.iterate_zero_apply]

lemma daylightS_g8R : daylightS g8R = (67947725/16777216) := by
  rw [daylightS_of_march march_g8R, if_neg (by norm_num [signQ])]
  show ((bisectRun g8R (⟨4, (1/40), 6, (-39/40)⟩ : BisectState)).a + (bisectRun g8R (⟨4, (1/40), 6, (-39/40)⟩ : BisectState)).b) / 2 = (67947725/16777216)
  rw [bisect_g8R]
  norm_num

lemma march_gc3 : marchRun gc3 = (⟨0, 100, 2, -100⟩ : MarchState) := by
  rw [marchRun, show marchInit gc3 = (⟨0, 100, 2, -100⟩ : MarchState) from by norm_num [marchInit, gc3, stepTerrain]]
  rw [show (100 : ℕ) = 99 + 1 from rfl,
    marchAux_stop _ 99 (⟨0, 100, 2, -100⟩ : MarchState) (by norm_num [signQ])]

lemma bisect_gc3 : bisectRun gc3 (⟨0, 100, 2, -100⟩ : BisectState) = (⟨(8388607/8388608), 100, 1, -100⟩ : BisectState) := by
  rw [bisectRun_eq]
  rw [iterate_succ_eval _ 23 (⟨0, 100, 2, -100⟩ : BisectState) (⟨0, 100, 1, -100⟩ : BisectState)
    (by norm_num [bisectStep, signQ, gc3, stepTerrain])]
  rw [iterate_succ_eval _ 22 (⟨0, 100, 1, -100⟩ : BisectState) (⟨(1/2), 100, 1, -100⟩ : BisectState)
    (by norm_num [bisectStep, signQ, gc3, stepTerrain])]
  rw [iterate_succ_eval _ 21 (⟨(1/2), 100, 1, -100⟩ : BisectState) (⟨(3/4), 100, 1, -100⟩ : BisectState)
    (by norm_num [bisectStep, signQ, gc3, stepTerrain])]
  rw [iterate_succ_eval _ 20 (⟨(3/4), 100, 1, -100⟩ : BisectState) (⟨(7/8), 100, 1, -100⟩ : BisectState)
    (by norm_num [bisectStep, signQ, gc3, stepTerrain])]
  rw [iterate_succ_eval _ 19 (⟨(7/8), 100, 1, -100⟩ : BisectState) (⟨(15/16), 100, 1, -100⟩ : BisectState)
    (by norm_num [bisectStep, signQ, gc3, stepTerrain])]
  rw [iterate_succ_eval _ 18 (⟨(15/16), 100, 1, -100⟩ : BisectState) (⟨(31/32), 100, 1, -100⟩ : BisectState)
    (by norm_num [bisectStep, signQ, gc3, stepTerrain])]
  rw [iterate_succ_eval _ 17 (⟨(31/32), 100, 1, -100⟩ : BisectState) (⟨(63/64), 100, 1, -100⟩ : BisectState)
    (by norm_num [bisectStep, signQ, gc3, stepTerrain])]
  rw [iterate_succ_eval _ 16 (⟨(63/64), 100, 1, -100⟩ : BisectState) (⟨(127/128), 100, 1, -100⟩ : BisectState)
    (by norm_num [bisectStep, signQ, gc3, stepTerrain])]
  rw [iterate_succ_eval _ 15 (⟨(127/128), 100, 1, -100⟩ : BisectState) (⟨(255/256), 100, 1, -100⟩ : BisectState)
    (by norm_num [bisectStep, signQ, gc3, stepTerrain])]
  rw [iterate_succ_eval _ 14 (⟨(255/256), 100, 1, -100⟩ : BisectState) (⟨(511/512), 100, 1, -100⟩ : BisectState)
    (by norm_num [bisectStep, signQ, gc3, stepTerrain])]
  rw [iterate_succ_eval _ 13 (⟨(511/512), 100, 1, -100⟩ : BisectState) (⟨(1023/1024), 100, 1, -100⟩ : BisectState)
    (by norm_num [bisectStep, signQ, gc3, stepTerrain])]
  rw [iterate_succ_eval _ 12 (⟨(1023/1024), 100, 1, -100⟩ : BisectState) (⟨(2047/2048), 100, 1, -100⟩ : BisectState)
    (by norm_num [bisectStep, signQ, gc3, stepTerrain])]
  rw [iterate_succ_eval _ 11 (⟨(2047/2048), 100, 1, -100⟩ : BisectState) (⟨(4095/4096), 100, 1, -100⟩ : BisectState)
    (by norm_num [bisectStep, signQ, gc3, stepTerrain])]
  rw [iterate_succ_eval _ 10 (⟨(4095/4096), 100, 1, -100⟩ : BisectState) (⟨(8191/8192), 100, 1, -100⟩ : BisectState)
    (by norm_num [bisectStep, signQ, gc3, stepTerrain])]
  rw [iterate_succ_eval _ 9 (⟨(8191/8192), 100, 1, -100⟩ : BisectState) (⟨(16383/16384), 100, 1, -100⟩ : BisectState)
    (by norm_num [bisectStep, signQ, gc3, stepTerrain])]
  rw [iterate_succ_eval _ 8 (⟨(16383/16384), 100, 1, -100⟩ : BisectState) (⟨(32767/32768), 100, 1, -100⟩ : BisectState)
    (by norm_num [bisectStep, signQ, gc3, stepTerrain])]
  rw [iterate_succ_eval _ 7 (⟨(32767/32768), 100, 1, -100⟩ : BisectState) (⟨(65535/65536), 100, 1, -100⟩ : BisectState)
    (by norm_num [bisectStep, signQ, gc3, stepTerrain])]
  rw [iterate_succ_eval _ 6 (⟨(65535/65536), 100, 1, -100⟩ : BisectState) (⟨(131071/131072), 100, 1, -100⟩ : BisectState)
    (by norm_num [bisectStep, signQ, gc3, stepTerrain])]
  rw [iterate_succ_eval _ 5 (⟨(131071/131072), 100, 1, -100⟩ : BisectState) (⟨(262143/262144), 100, 1, -100⟩ : BisectState)
    (by norm_num [bisectStep, signQ, gc3, stepTerrain])]
  rw [iterate_succ_eval _ 4 (⟨(262143/262144), 100, 1, -100⟩ : BisectState) (⟨(524287/524288), 100, 1, -100⟩ : BisectState)
    (by norm_num [bisectStep, signQ, gc3, stepTerrain])]
  rw [iterate_succ_eval _ 3 (⟨(524287/524288), 100, 1, -100⟩ : BisectState) (⟨(1048575/1048576), 100, 1, -100⟩ : BisectState)
    (by norm_num [bisectStep, signQ, gc3, stepTerrain])]
  rw [iterate_succ_eval _ 2 (⟨(1048575/1048576), 100, 1, -100⟩ : BisectState) (⟨(2097151/2097152), 100, 1, -100⟩ : BisectState)
    (by norm_num [bisectStep, signQ, gc3, stepTerrain])]
  rw [iterate_succ_eval _ 1 (⟨(2097151/2097152), 100, 1, -100⟩ : BisectState) (⟨(4194303/4194304), 100, 1, -100⟩ : BisectState)
    (by norm_num [bisectStep, signQ, gc3, stepTerrain])]
  rw [iterate_succ_eval _ 0 (⟨(4194303/4194304), 100, 1, -100⟩ : BisectState) (⟨(8388607/8388608), 100, 1, -100⟩ : BisectState)
    (by norm_num [bisectStep, signQ, gc3, stepTerrain])]
  rw [Function.iterate_zero_apply]

lemma daylightS_gc3 : daylightS gc3 = (16777215/16777216) := by
  rw [daylightS_of_march march_gc3, if_neg (by norm_num [signQ])]
  show ((bisectRun gc3 (⟨0, 100, 2, -100⟩ : BisectState)).a + (bisectRun gc3 (⟨0, 100, 2, -100⟩ : BisectState)).b) / 2 = (16777215/16777216)
  rw [bisect_gc3]
  norm_num

/-! ### Scenario templates -/

/-- The default template values of the source (laneWidth 3.5, crossfall -0.02,
kerb 0.25 wide and 0.125 high, footpath 1.5 wide with crossfall -0.02, kerb
and footpath enabled). -/
def tplDefault : DayTemplate := ⟨7 / 2, -(1 / 50), 1 / 4, 1 / 8, 3 / 2, -(1 / 50), true, true⟩

/-- A template with a flat design surface: zero crossfall, kerb and footpath
disabled, so the daylight anchor is the pavement edge at the centre elevation. -/
def tplFlat : DayTemplate := ⟨7 / 2, 0, 1 / 4, 1 / 8, 3 / 2, -(1 / 50), false, false⟩

/-- Any daylight search whose start elevation sits exactly 2 above a constant
terrain and whose slope is `-1/2` returns the distance `4 - 2⁻²⁴`. -/
lemma findDaylight_flat_fill (edge dir : ℚ × ℚ) (zE dz : ℚ) (h : ℚ → ℚ → ℚ)
    (hdz : dz = -(1 / 2)) (hh : ∀ x y, h x y = zE - 2) :
    (findDaylightIntersection edge zE dir dz h).s = 4 - 1 / 2 ^ 24 := by
  have hf : fRay edge zE dir dz h = g5 := by
    funext s
    rw [fRay, hh, hdz]
    show (zE + -(1 / 2) * s) - (zE - 2) = g5 s
    rw [g5]
    ring
  show daylightS (fRay edge zE dir dz h) = 4 - 1 / 2 ^ 24
  rw [hf, daylightS_g5]
  norm_num

/-- The left-edge daylight search of the C8 station. -/
lemma findDaylight_g8L_eval (edge dir : ℚ × ℚ) (zE dz : ℚ) (h : ℚ → ℚ → ℚ)
    (hz : zE = 2017 / 200) (hdz : dz = -(1 / 2)) (hh : ∀ x y, h x y = 8) :
    (findDaylightIntersection edge zE dir dz h).s = 69960991 / 16777216 := by
  have hf : fRay edge zE dir dz h = g8L := by
    funext s
    rw [fRay, hh, hz, hdz]
    show (2017 / 200 + -(1 / 2) * s) - 8 = g8L s
    rw [g8L]
    ring
  show daylightS (fRay edge zE dir dz h) = 69960991 / 16777216
  rw [hf, daylightS_g8L]

/-- The right-edge daylight search of the C8 station. -/
lemma findDaylight_g8R_eval (edge dir : ℚ × ℚ) (zE dz : ℚ) (h : ℚ → ℚ → ℚ)
    (hz : zE = 401 / 40) (hdz : dz = -(1 / 2)) (hh : ∀ x y, h x y = 8) :
    (findDaylightIntersection edge zE dir dz h).s = 67947725 / 16777216 := by
  have hf : fRay edge zE dir dz h = g8R := by
    funext s
    rw [fRay, hh, hz, hdz]
    show (401 / 40 + -(1 / 2) * s) - 8 = g8R s
    rw [g8R]
    ring
  show daylightS (fRay edge zE dir dz h) = 67947725 / 16777216
  rw [hf, daylightS_g8R]

/-- C5: for a flat terrain exactly 2 length-units below a flat design
elevation at the template edge (flat template: zero crossfall, kerb and
footpath disabled, so the edge elevation is the centre elevation `zc`) and a
daylight slope ratio H:V = 2:1, both sides pick the fill sign `-1`
(terrain below design), use `dz/ds = -1/2`, and return a daylight
intersection at horizontal distance `4 - 2⁻²⁴` from the edge point, i.e.
within the bisection tolerance `2⁻²³` of distance 4. -/
theorem daylightStation_scenarioD (zc : ℚ) (c n : ℚ × ℚ) :
    (daylightStation c n zc tplFlat 2 (fun _ _ => zc - 2)).signL = -1 ∧
    (daylightStation c n zc tplFlat 2 (fun _ _ => zc - 2)).signR = -1 ∧
    (daylightStation c n zc tplFlat 2 (fun _ _ => zc - 2)).dzdsL = -(1 / 2) ∧
    (daylightStation c n zc tplFlat 2 (fun _ _ => zc - 2)).dzdsR = -(1 / 2) ∧
    (daylightStation c n zc tplFlat 2 (fun _ _ => zc - 2)).dl.s = 4 - 1 / 2 ^ 24 ∧
    (daylightStation c n zc tplFlat 2 (fun _ _ => zc - 2)).dr.s = 4 - 1 / 2 ^ 24 ∧
    |(daylightStation c n zc tplFlat 2 (fun _ _ => zc - 2)).dl.s - 4| ≤ 1 / 2 ^ 23 ∧
    |(daylightStation c n zc tplFlat 2 (fun _ _ => zc - 2)).dr.s - 4| ≤ 1 / 2 ^ 23 := by
  have hdl : (daylightStation c n zc tplFlat 2 (fun _ _ => zc - 2)).dl.s = 4 - 1 / 2 ^ 24 := by
    simp only [daylightStation, tplFlat]
    apply findDaylight_flat_fill
    · norm_num [sub_sub_cancel_left, max_def]
    · intro x y
      norm_num
  have hdr : (daylightStation c n zc tplFlat 2 (fun _ _ => zc - 2)).dr.s = 4 - 1 / 2 ^ 24 := by
    simp only [daylightStation, tplFlat]
    apply findDaylight_flat_fill
    · norm_num [sub_sub_cancel_left, max_def]
    · intro x y
      norm_num
  refine ⟨?_, ?_, ?_, ?_, hdl, hdr, ?_, ?_⟩
  · simp only [daylightStation, tplFlat]
    norm_num [sub_sub_cancel_left]
  · simp only [daylightStation, tplFlat]
    norm_num [sub_sub_cancel_left]
  · simp only [daylightStation, tplFlat]
    norm_num [sub_sub_cancel_left, max_def]
  · simp only [daylightStation, tplFlat]
    norm_num [sub_sub_cancel_left, max_def]
  · rw [hdl]
    norm_num [abs_le]
  · rw [hdr]
    norm_num [abs_le]

/-- C8: at a station of a straight centerline with the default symmetric
template (kerb and footpath enabled, footpath crossfall -0.02) over flat
terrain at elevation 8 and centre elevation 10, the code computes different
left and right outer-edge elevations (10.085 vs 10.025) because the footpath
step `(xfallFoot * sideSign) * footW` flips sign with the side, and the two
daylight searches therefore return different horizontal distances: the claim
that left and right results are mirror images fails on this input, although
template and terrain are symmetric.  The source comments the footpath
crossfall as a fall away from the carriageway, which the left side violates. -/
theorem daylightStation_symmetric_template_asymmetric_result :
    (daylightStation (0, 0) (0, 1) 10 tplDefault 2 (fun _ _ => 8)).zLeftEdge = 2017 / 200 ∧
    (daylightStation (0, 0) (0, 1) 10 tplDefault 2 (fun _ _ => 8)).zRightEdge = 401 / 40 ∧
    (daylightStation (0, 0) (0, 1) 10 tplDefault 2 (fun _ _ => 8)).zLeftEdge ≠
      (daylightStation (0, 0) (0, 1) 10 tplDefault 2 (fun _ _ => 8)).zRightEdge ∧
    (daylightStation (0, 0) (0, 1) 10 tplDefault 2 (fun _ _ => 8)).dl.s = 69960991 / 16777216 ∧
    (daylightStation (0, 0) (0, 1) 10 tplDefault 2 (fun _ _ => 8)).dr.s = 67947725 / 16777216 ∧
    (daylightStation (0, 0) (0, 1) 10 tplDefault 2 (fun _ _ => 8)).dl.s ≠
      (daylightStation (0, 0) (0, 1) 10 tplDefault 2 (fun _ _ => 8)).dr.s := by
  have hzl : (daylightStation (0, 0) (0, 1) 10 tplDefault 2 (fun _ _ => 8)).zLeftEdge
      = 2017 / 200 := by
    simp only [daylightStation, tplDefault]
    norm_num [signQ]
  have hzr : (daylightStation (0, 0) (0, 1) 10 tplDefault 2 (fun _ _ => 8)).zRightEdge
      = 401 / 40 := by
    simp only [daylightStation, tplDefault]
    norm_num [signQ]
  have hdl : (daylightStation (0, 0) (0, 1) 10 tplDefault 2 (fun _ _ => 8)).dl.s
      = 69960991 / 16777216 := by
    simp only [daylightStation, tplDefault]
    apply findDaylight_g8L_eval
    · norm_num [signQ]
    · norm_num [signQ, signOr1, max_def]
    · intro x y
      rfl
  have hdr : (daylightStation (0, 0) (0, 1) 10 tplDefault 2 (fun _ _ => 8)).dr.s
      = 67947725 / 16777216 := by
    simp only [daylightStation, tplDefault]
    apply findDaylight_g8R_eval
    · norm_num [signQ]
    · norm_num [signQ, signOr1, max_def]
    · intro x y
      rfl
  refine ⟨hzl, hzr, ?_, hdl, hdr, ?_⟩
  · rw [hzl, hzr]
    norm_num
  · rw [hdl, hdr]
    norm_num

/-- C3 (amended): for every terrain height function, start point, start
elevation, direction and slope, the daylight root search is total and returns
a distance `s*` such that either a sign change was found and `s*` lies inside
a bracket of width at most `2 / 2²⁴` whose endpoints carry different signs of
`f` (so `|f(s*)|` is small whenever `f` is continuous with moderate slope
near the bracket, but not in general), or no sign change of `f` was found
during the march and `s*` equals the maximum search distance 200, the
"not found" sentinel.  No exception is raised in either case: the function
is total by construction. -/
theorem findDaylightIntersection_bracket_or_sentinel (startXY : ℚ × ℚ) (startZ : ℚ)
    (dirXY : ℚ × ℚ) (dz : ℚ) (heightFn : ℚ → ℚ → ℚ) :
    (∃ a b : ℚ,
        a ≤ (findDaylightIntersection startXY startZ dirXY dz heightFn).s ∧
        (findDaylightIntersection startXY startZ dirXY dz heightFn).s ≤ b ∧
        b - a ≤ 2 / 2 ^ 24 ∧
        signQ (fRay startXY startZ dirXY dz heightFn a) ≠
          signQ (fRay startXY startZ dirXY dz heightFn b)) ∨
    (signQ (marchRun (fRay startXY startZ dirXY dz heightFn)).f0 =
        signQ (marchRun (fRay startXY startZ dirXY dz heightFn)).f1 ∧
      (findDaylightIntersection startXY startZ dirXY dz heightFn).s = 200) := by
  set f := fRay startXY startZ dirXY dz heightFn with hfdef
  obtain ⟨h0, h01, h1, hw, hf0, hf1⟩ := marchRun_inv f
  have hs : (findDaylightIntersection startXY startZ dirXY dz heightFn).s = daylightS f := rfl
  by_cases h : signQ (marchRun f).f0 = signQ (marchRun f).f1
  · right
    refine ⟨h, ?_⟩
    rw [hs, daylightS_of_march (rfl : marchRun f = marchRun f), if_pos h]
    have hexit := marchAux_exits (f := f) 100 (marchInit f) (by push_cast; norm_num [marchInit])
    have : ¬((marchRun f).s1 < 200) := fun hlt => hexit ⟨h, hlt⟩
    linarith [h1, not_lt.mp this]
  · left
    have hbis : BisInv f (marchRun f).s0 (marchRun f).s1
        (bisectRun f ⟨(marchRun f).s0, (marchRun f).f0, (marchRun f).s1, (marchRun f).f1⟩) := by
      rw [bisectRun_eq]
      exact bisectIter_inv 24 ⟨le_refl _, h01, le_refl _, hf0, hf1, h⟩
    obtain ⟨hlo, hab, hhi, hfa, hfb, hsign⟩ := hbis
    have hwidth := bisectIter_width f 24 ⟨(marchRun f).s0, (marchRun f).f0,
      (marchRun f).s1, (marchRun f).f1⟩
    rw [← bisectRun_eq] at hwidth
    refine ⟨(bisectRun f ⟨(marchRun f).s0, (marchRun f).f0, (marchRun f).s1, (marchRun f).f1⟩).a,
      (bisectRun f ⟨(marchRun f).s0, (marchRun f).f0, (marchRun f).s1, (marchRun f).f1⟩).b,
      ?_, ?_, ?_, ?_⟩
    · rw [hs, daylightS_of_march (rfl : marchRun f = marchRun f), if_neg h]
      linarith
    · rw [hs, daylightS_of_march (rfl : marchRun f = marchRun f), if_neg h]
      linarith
    · rw [hwidth]
      have h2 : (marchRun f).s1 - (marchRun f).s0 ≤ 2 := hw
      have : (0 : ℚ) < 2 ^ 24 := by positivity
      rw [div_le_div_iff₀ this this]
      linarith
    · rw [← hfa, ← hfb]
      exact hsign

/-- C3 counterexample: over the discontinuous cliff terrain `stepTerrain`,
the search finds a sign change and bisects down to `s* = 1 - 2⁻²⁴`, yet the
residual is `|f(s*)| = 100`, far from any small tolerance, and `s*` is not
the 200 sentinel: the claim's disjunction fails as stated for this terrain. -/
theorem findDaylightIntersection_large_residual_cex :
    (findDaylightIntersection (0, 0) 0 (1, 0) 0 stepTerrain).s = 16777215 / 16777216 ∧
    fRay (0, 0) 0 (1, 0) 0 stepTerrain
        ((findDaylightIntersection (0, 0) 0 (1, 0) 0 stepTerrain).s) = 100 ∧
    (findDaylightIntersection (0, 0) 0 (1, 0) 0 stepTerrain).s ≠ 200 ∧
    signQ (marchRun (fRay (0, 0) 0 (1, 0) 0 stepTerrain)).f0 ≠
      signQ (marchRun (fRay (0, 0) 0 (1, 0) 0 stepTerrain)).f1 := by
  have hf : fRay (0, 0) 0 (1, 0) 0 stepTerrain = gc3 := by
    funext s
    simp only [fRay, gc3, stepTerrain]
    norm_num
  have hs : (findDaylightIntersection (0, 0) 0 (1, 0) 0 stepTerrain).s
      = 16777215 / 16777216 := by
    show daylightS (fRay (0, 0) 0 (1, 0) 0 stepTerrain) = 16777215 / 16777216
    rw [hf, daylightS_gc3]
  refine ⟨hs, ?_, ?_, ?_⟩
  · rw [hs, hf]
    norm_num [gc3, stepTerrain]
  · rw [hs]
    norm_num
  · rw [hf, march_gc3]
    norm_num [signQ]

/-- C10: the daylight root search terminates and stays in range: the march
step advances `s1` to `min 200 (s1 + 2)` (a fixed outward step of 2 capped at
the maximum distance), the march loop exits by its own condition within the
100 iterations of fuel (so at most 100 iterations), the refinement performs
exactly 24 bisection halvings (final bracket width is the initial width
divided by 2²⁴), the returned distance satisfies `0 ≤ s* ≤ 200`, the
returned point is `start + dir * s*`, and its `z` is the terrain height at
the returned `(x, y)` — for every terrain height function, including
discontinuous ones. -/
theorem findDaylightIntersection_terminates_in_range (startXY : ℚ × ℚ) (startZ : ℚ)
    (dirXY : ℚ × ℚ) (dz : ℚ) (heightFn : ℚ → ℚ → ℚ) :
    (∀ st : MarchState, marchStep (fRay startXY startZ dirXY dz heightFn) st =
        ⟨st.s1, st.f1, min 200 (st.s1 + 2),
          fRay startXY startZ dirXY dz heightFn (min 200 (st.s1 + 2))⟩) ∧
    ¬(signQ (marchRun (fRay startXY startZ dirXY dz heightFn)).f0 =
          signQ (marchRun (fRay startXY startZ dirXY dz heightFn)).f1 ∧
        (marchRun (fRay startXY startZ dirXY dz heightFn)).s1 < 200) ∧
    (∀ bst : BisectState,
        (bisectRun (fRay startXY startZ dirXY dz heightFn) bst).b -
            (bisectRun (fRay startXY startZ dirXY dz heightFn) bst).a =
          (bst.b - bst.a) / 2 ^ 24) ∧
    0 ≤ (findDaylightIntersection startXY startZ dirXY dz heightFn).s ∧
    (findDaylightIntersection startXY startZ dirXY dz heightFn).s ≤ 200 ∧
    (findDaylightIntersection startXY startZ dirXY dz heightFn).x =
      startXY.1 + dirXY.1 * (findDaylightIntersection startXY startZ dirXY dz heightFn).s ∧
    (findDaylightIntersection startXY startZ dirXY dz heightFn).y =
      startXY.2 + dirXY.2 * (findDaylightIntersection startXY startZ dirXY dz heightFn).s ∧
    (findDaylightIntersection startXY startZ dirXY dz heightFn).z =
      heightFn (findDaylightIntersection startXY startZ dirXY dz heightFn).x
        (findDaylightIntersection startXY startZ dirXY dz heightFn).y := by
  set f := fRay startXY startZ dirXY dz heightFn with hfdef
  obtain ⟨h0, h01, h1, hw, hf0, hf1⟩ := marchRun_inv f
  have hs : (findDaylightIntersection startXY startZ dirXY dz heightFn).s = daylightS f := rfl
  have hexit := marchAux_exits (f := f) 100 (marchInit f) (by push_cast; norm_num [marchInit])
  have hrange : 0 ≤ daylightS f ∧ daylightS f ≤ 200 := by
    rw [daylightS_of_march (rfl : marchRun f = marchRun f)]
    by_cases h : signQ (marchRun f).f0 = signQ (marchRun f).f1
    · rw [if_pos h]
      constructor <;> linarith
    · rw [if_neg h]
      have hbis : BisInv f (marchRun f).s0 (marchRun f).s1
          (bisectRun f ⟨(marchRun f).s0, (marchRun f).f0, (marchRun f).s1, (marchRun f).f1⟩) := by
        rw [bisectRun_eq]
        exact bisectIter_inv 24 ⟨le_refl _, h01, le_refl _, hf0, hf1, h⟩
      obtain ⟨hlo, hab, hhi, -, -, -⟩ := hbis
      constructor <;> linarith
  refine ⟨fun _ => rfl, hexit, ?_, ?_, ?_, rfl, rfl, rfl⟩
  · intro bst
    rw [bisectRun_eq]
    exact bisectIter_width f 24 bst
  · rw [hs]
    exact hrange.1
  · rw [hs]
    exact hrange.2

/-- C10 instantiated at a concrete flat terrain, discharging no hypotheses
(the theorem has none); kept as an explicit check that the statement applies. -/
theorem findDaylightIntersection_terminates_in_range_witness :
    0 ≤ (findDaylightIntersection (0, 0) 0 (1, 0) 0 (fun _ _ => 0)).s ∧
    (findDaylightIntersection (0, 0) 0 (1, 0) 0 (fun _ _ => 0)).s ≤ 200 :=
  ⟨(findDaylightIntersection_terminates_in_range (0, 0) 0 (1, 0) 0 (fun _ _ => 0)).2.2.2.1,
   (findDaylightIntersection_terminates_in_range (0, 0) 0 (1, 0) 0 (fun _ _ => 0)).2.2.2.2.1⟩

/-- C6 (amended): per side, the kerb solid's top surface is a linear ramp
across the kerb width: its inner top elevation equals the pavement-edge
elevation and its outer top elevation equals pavement-edge elevation plus the
kerb height (so the kerb top is not flat — only its outer edge reaches
pavement edge + kerb height); with the footpath enabled, the footpath starts
at the kerb outer top (pavement edge + kerb height) and its outer-edge
elevation adds `crossfallFootpath * footpathWidth` signed by side, as the
daylight mesh's outer-edge elevation also does. -/
theorem kerbTop_ramp_footTop_offset (zc laneW xf kerbH xfallFoot footW sideSign : ℚ) :
    (kerbTop zc laneW xf kerbH sideSign).1
        = zc + slopeAtCorr laneW xf (sideSign * laneW) * (sideSign * laneW) ∧
    (kerbTop zc laneW xf kerbH sideSign).2 = (kerbTop zc laneW xf kerbH sideSign).1 + kerbH ∧
    (footTop zc laneW xf kerbH xfallFoot footW sideSign).1
        = (kerbTop zc laneW xf kerbH sideSign).2 ∧
    (footTop zc laneW xf kerbH xfallFoot footW sideSign).2
        = (footTop zc laneW xf kerbH xfallFoot footW sideSign).1
            + (xfallFoot * sideSign) * footW ∧
    (∀ (c n : ℚ × ℚ) (tpl : DayTemplate) (slopeHtoV : ℚ) (h : ℚ → ℚ → ℚ),
        tpl.footEnabled = true →
        (daylightStation c n zc tpl slopeHtoV h).zRightEdge =
          (zc + (tpl.crossfallLane * signQ tpl.laneWidth) * tpl.laneWidth
              + (if tpl.kerbEnabled then tpl.kerbH else 0)) + (tpl.xfallFoot * 1) * tpl.footW) := by
  refine ⟨rfl, rfl, rfl, rfl, ?_⟩
  intro c n tpl slopeHtoV h hfoot
  simp only [daylightStation, hfoot]
  norm_num

/-- C6 witness: the amended statement applied at a concrete station with the
default template, discharging the footpath-enabled hypothesis there. -/
theorem kerbTop_ramp_footTop_offset_witness :
    tplDefault.footEnabled = true ∧
    (daylightStation (0, 0) (0, 1) 10 tplDefault 2 (fun _ _ => 8)).zRightEdge =
      (10 + (tplDefault.crossfallLane * signQ tplDefault.laneWidth) * tplDefault.laneWidth
          + (if tplDefault.kerbEnabled then tplDefault.kerbH else 0))
        + (tplDefault.xfallFoot * 1) * tplDefault.footW :=
  ⟨rfl, (kerbTop_ramp_footTop_offset 10 (7 / 2) (-(1 / 50)) (1 / 8) (-(1 / 50)) (3 / 2) 1).2.2.2.2
    (0, 0) (0, 1) tplDefault 2 (fun _ _ => 8) rfl⟩

/-- C6 counterexample: at centre elevation 10, zero crossfall and kerb height
0.125, the kerb solid's top is `(10, 10.125)` across the kerb width: the
inner top elevation equals the pavement edge elevation 10, not pavement edge
+ kerb height, so the kerb top is a slope, not the claimed flat vertical
step. -/
theorem kerbTop_not_flat_cex :
    (kerbTop 10 (7 / 2) 0 (1 / 8) 1).1 ≠ (kerbTop 10 (7 / 2) 0 (1 / 8) 1).2 ∧
    (kerbTop 10 (7 / 2) 0 (1 / 8) 1).1 = 10 ∧
    (10 : ℚ) ≠ 10 + 1 / 8 := by
  refine ⟨?_, ?_, by norm_num⟩
  · norm_num [kerbTop, slopeAtCorr, signQ]
  · norm_num [kerbTop, slopeAtCorr, signQ]

/-! ### Sorted grade profiles -/

/-- A grade profile sorted strictly by chainage with adjacent gaps of at
least `1e-9` (the denominator guard of the interpolation). -/
def GapSorted (l : List GP) : Prop :=
  List.Chain' (fun a b => a.s + 1 / 10 ^ 9 ≤ b.s) l

lemma sortByS_sorted_eq : ∀ {l : List GP},
    List.Chain' (fun a b : GP => a.s ≤ b.s) l → sortByS l = l
  | [], _ => rfl
  | x :: xs, h => by
      simp only [sortByS]
      have ht : List.Chain' (fun a b : GP => a.s ≤ b.s) xs := h.tail
      rw [sortByS_sorted_eq ht]
      cases xs with
      | nil => rfl
      | cons y ys =>
          simp only [insertGP]
          rw [if_pos (List.chain'_cons.mp h).1]

lemma GapSorted.tail {x : GP} {l : List GP} (h : GapSorted (x :: l)) : GapSorted l :=
  List.Chain'.tail h

lemma gapSorted_head_le {y : GP} : ∀ {tl : List GP}, GapSorted (y :: tl) →
    ∀ u ∈ tl, y.s + 1 / 10 ^ 9 ≤ u.s := by
  intro tl
  induction tl generalizing y with
  | nil =>
      intro _ u hu
      cases hu
  | cons z tl ih =>
      intro h u hu
      have h1 : y.s + 1 / 10 ^ 9 ≤ z.s := (List.chain'_cons.mp h).1
      rcases List.mem_cons.mp hu with rfl | hu
      · exact h1
      · have h2 := ih (List.chain'_cons.mp h).2 u hu
        linarith

lemma gapSorted_head_le' {y : GP} {tl : List GP} (h : GapSorted (y :: tl)) :
    ∀ u ∈ y :: tl, y.s ≤ u.s := by
  intro u hu
  rcases List.mem_cons.mp hu with rfl | hu
  · exact le_refl _
  · linarith [gapSorted_head_le h u hu]

lemma gapSorted_le_getLast : ∀ {l : List GP} (h : GapSorted l) (hne : l ≠ []),
    ∀ v ∈ l, v.s ≤ (l.getLast hne).s := by
  intro l
  induction l with
  | nil => intro _ hne; exact absurd rfl hne
  | cons x tl ih =>
      intro h hne v hv
      cases tl with
      | nil =>
          rcases List.mem_cons.mp hv with rfl | hv
          · exact le_refl _
          · cases hv
      | cons y ys =>
          rw [List.getLast_cons (by simp)]
          rcases List.mem_cons.mp hv with rfl | hv
          · have h1 : v.s + 1 / 10 ^ 9 ≤ y.s := (List.chain'_cons.mp h).1
            have h2 := ih h.tail (by simp) y (List.mem_cons_self y ys)
            linarith
          · exact ih h.tail (by simp) v hv

lemma gapSorted_s_injOn : ∀ {l : List GP}, GapSorted l →
    ∀ u ∈ l, ∀ v ∈ l, u.s = v.s → u = v := by
  intro l
  induction l with
  | nil =>
      intro _ u hu
      cases hu
  | cons x tl ih =>
      intro h u hu v hv heq
      rcases List.mem_cons.mp hu with hux | hu2
      · rcases List.mem_cons.mp hv with hvx | hv2
        · rw [hux, hvx]
        · exfalso
          have h2 := gapSorted_head_le h v hv2
          rw [hux] at heq
          rw [← heq] at h2
          linarith
      · rcases List.mem_cons.mp hv with hvx | hv2
        · exfalso
          have h2 := gapSorted_head_le h u hu2
          rw [hvx] at heq
          rw [heq] at h2
          linarith
        · exact ih h.tail u hu2 v hv2 heq

lemma scanSeg_between {s : ℚ} : ∀ {l : List GP}, GapSorted l →
    ∀ p ∈ List.zip l l.tail, p.1.s < s → s < p.2.s →
      scanSeg s l = some (lerpQ p.1.z p.2.z ((s - p.1.s) / (p.2.s - p.1.s))) := by
  intro l
  induction l with
  | nil =>
      intro _ p hp
      cases hp
  | cons x tl ih =>
      intro h p hp hlt1 hlt2
      cases tl with
      | nil => cases hp
      | cons y ys =>
          simp only [List.tail_cons, List.zip_cons_cons, List.mem_cons] at hp
          rcases hp with rfl | hp
          · dsimp only at hlt1 hlt2 ⊢
            simp only [scanSeg]
            rw [if_pos ⟨le_of_lt hlt1, le_of_lt hlt2⟩]
            have hgap : 1 / 10 ^ 9 ≤ y.s - x.s := by
              have hxy := (List.chain'_cons.mp h).1
              linarith
            rw [max_eq_right hgap]
          · have hy : p.1 ∈ y :: ys := (List.of_mem_zip hp).1
            have hys : y.s ≤ p.1.s := gapSorted_head_le' h.tail p.1 hy
            simp only [scanSeg]
            rw [if_neg (by intro hc; linarith [hc.2])]
            exact ih h.tail p hp hlt1 hlt2

lemma scanSeg_at_mem {s : ℚ} : ∀ {l : List GP}, GapSorted l → 2 ≤ l.length →
    ∀ g ∈ l, s = g.s → scanSeg s l = some g.z := by
  intro l
  induction l with
  | nil =>
      intro _ _ g hg
      cases hg
  | cons x tl ih =>
      intro h hlen g hg hs
      cases tl with
      | nil => simp at hlen
      | cons y ys =>
          have hxy : x.s + 1 / 10 ^ 9 ≤ y.s := (List.chain'_cons.mp h).1
          rcases List.mem_cons.mp hg with rfl | hg
          · simp only [scanSeg]
            rw [if_pos ⟨le_of_eq hs.symm, by linarith [hs]⟩]
            rw [hs, sub_self, zero_div]
            simp [lerpQ]
          · rcases List.mem_cons.mp hg with rfl | hg
            · simp only [scanSeg]
              rw [if_pos ⟨by linarith [hs], le_of_eq hs⟩]
              have hgap : 1 / 10 ^ 9 ≤ g.s - x.s := by linarith
              rw [max_eq_right hgap, hs]
              have : (g.s - x.s) / (g.s - x.s) = 1 := div_self (by linarith)
              rw [this]
              simp [lerpQ]
            · have hyg := gapSorted_head_le h.tail g hg
              simp only [scanSeg]
              rw [if_neg (by intro hc; linarith [hc.2])]
              apply ih h.tail _ g (List.mem_cons_of_mem y hg) hs
              cases hg' : ys with
              | nil => rw [hg'] at hg; cases hg
              | cons z zs => simp [hg']

/-- C2 (amended): for every grade profile with at least 2 control points that
is sorted by chainage with adjacent gaps of at least `1e-9` (the code's
denominator guard), the evaluation clamps to the first elevation at or before
the first chainage and to the last elevation at or after the last chainage,
returns the exact linear interpolation of the bracketing pair strictly
between two adjacent control points, and returns the control point's own
elevation exactly at any control-point chainage; in particular for control
points (0,10), (50,12), (100,8): evaluate(25) = 11 and evaluate(75) = 10.
For adjacent gaps below `1e-9` the interpolation statement fails
(see the counterexample). -/
theorem evalCenterZ_clamps_and_interpolates (prof : List GP) (zS zE L s : ℚ)
    (hlen : 2 ≤ prof.length) (hsort : GapSorted prof) :
    (∀ a, prof.head? = some a → s ≤ a.s → evalCenterZ prof zS zE L s = a.z) ∧
    (∀ b, prof.getLast? = some b → b.s ≤ s → evalCenterZ prof zS zE L s = b.z) ∧
    (∀ p ∈ List.zip prof prof.tail, p.1.s < s → s < p.2.s →
        evalCenterZ prof zS zE L s = lerpQ p.1.z p.2.z ((s - p.1.s) / (p.2.s - p.1.s))) ∧
    (∀ g ∈ prof, s = g.s → evalCenterZ prof zS zE L s = g.z) ∧
    evalCenterZ [⟨0, 10⟩, ⟨50, 12⟩, ⟨100, 8⟩] 0 0 100 25 = 11 ∧
    evalCenterZ [⟨0, 10⟩, ⟨50, 12⟩, ⟨100, 8⟩] 0 0 100 75 = 10 := by
  obtain ⟨a, rest, rfl⟩ : ∃ a rest, prof = a :: rest := by
    cases prof with
    | nil => simp at hlen
    | cons a rest => exact ⟨a, rest, rfl⟩
  obtain ⟨b0, rest', rfl⟩ : ∃ b0 rest', rest = b0 :: rest' := by
    cases rest with
    | nil => simp at hlen
    | cons b0 rest' => exact ⟨b0, rest', rfl⟩
  have hself : sortByS (a :: b0 :: rest') = a :: b0 :: rest' :=
    sortByS_sorted_eq (hsort.imp (by intro p q h; linarith))
  have hbody : evalCenterZ (a :: b0 :: rest') zS zE L s
      = (evalSorted s (a :: b0 :: rest')).getD
          (lerpQ zS zE (if 0 < L then s / L else 0)) := by
    rw [evalCenterZ, if_pos hlen, hself]
  have hlast_mem : (a :: b0 :: rest').getLast (by simp) ∈ a :: b0 :: rest' :=
    List.getLast_mem _
  have hle_last := gapSorted_le_getLast hsort (by simp)
  refine ⟨?_, ?_, ?_, ?_, ?_, ?_⟩
  · intro a' ha' hle
    rw [List.head?_cons, Option.some.injEq] at ha'
    subst ha'
    rw [hbody, evalSorted, if_pos hle]
    rfl
  · intro b hb hle
    rw [List.getLast?_eq_getLast _ (by simp), Option.some.injEq] at hb
    subst hb
    have hab : a.s < ((a :: b0 :: rest').getLast (by simp)).s := by
      have h1 : a.s + 1 / 10 ^ 9 ≤ b0.s := (List.chain'_cons.mp hsort).1
      have h2 := hle_last b0 (by simp)
      rw [List.getLast_cons (by simp)] at h2 ⊢
      linarith
    rw [hbody, evalSorted, if_neg (by intro hc; linarith), if_pos hle]
    rfl
  · intro p hp hlt1 hlt2
    have hmem1 : p.1 ∈ a :: b0 :: rest' := (List.of_mem_zip hp).1
    have hmem2 : p.2 ∈ (a :: b0 :: rest').tail := (List.of_mem_zip hp).2
    have hmem2' : p.2 ∈ a :: b0 :: rest' := List.mem_of_mem_tail hmem2
    have ha1 : a.s ≤ p.1.s := gapSorted_head_le' hsort p.1 hmem1
    have hlast2 : p.2.s ≤ ((a :: b0 :: rest').getLast (by simp)).s := hle_last p.2 hmem2'
    rw [hbody, evalSorted, if_neg (by intro hc; linarith), if_neg (by intro hc; linarith)]
    rw [scanSeg_between hsort p hp hlt1 hlt2]
    rfl
  · intro g hg hs
    rcases List.mem_cons.mp hg with rfl | hg'
    · rw [hbody, evalSorted, if_pos (le_of_eq hs)]
      rfl
    · have hag : a.s + 1 / 10 ^ 9 ≤ g.s := gapSorted_head_le hsort g hg'
      by_cases hlg : ((a :: b0 :: rest').getLast (by simp)).s ≤ s
      · have hgl : g.s ≤ ((a :: b0 :: rest').getLast (by simp)).s := hle_last g hg
        have hgs : g.s = ((a :: b0 :: rest').getLast (by simp)).s := by linarith [hs ▸ hlg]
        have hgeq : g = (a :: b0 :: rest').getLast (by simp) :=
          gapSorted_s_injOn hsort g hg _ hlast_mem hgs
        rw [hbody, evalSorted, if_neg (by intro hc; linarith), if_pos hlg, hgeq]
        rfl
      · rw [hbody, evalSorted, if_neg (by intro hc; linarith),
          if_neg hlg, scanSeg_at_mem hsort (by simp) g hg hs]
        rfl
  · norm_num [evalCenterZ, sortByS, insertGP, evalSorted, List.getLast, scanSeg, lerpQ, max_def]
  · norm_num [evalCenterZ, sortByS, insertGP, evalSorted, List.getLast, scanSeg, lerpQ, max_def]

/-- C2 witness: the theorem applied to the Scenario C profile at chainage 50,
its hypotheses discharged concretely; the round-trip returns elevation 12. -/
theorem evalCenterZ_clamps_and_interpolates_witness :
    2 ≤ ([⟨0, 10⟩, ⟨50, 12⟩, ⟨100, 8⟩] : List GP).length ∧
    GapSorted [⟨0, 10⟩, ⟨50, 12⟩, ⟨100, 8⟩] ∧
    evalCenterZ [⟨0, 10⟩, ⟨50, 12⟩, ⟨100, 8⟩] 0 0 100 50 = 12 :=
  ⟨by norm_num, by norm_num [GapSorted, List.chain'_cons],
    (evalCenterZ_clamps_and_interpolates [⟨0, 10⟩, ⟨50, 12⟩, ⟨100, 8⟩] 0 0 100 50
      (by norm_num) (by norm_num [GapSorted, List.chain'_cons])).2.2.2.1
      ⟨50, 12⟩ (by simp) rfl⟩

/-- C2 counterexample: two control points 10⁻¹⁰ apart in chainage; strictly
between them the code returns `lerp` with the guarded denominator
`max(1e-9, gap) = 1e-9`, giving `1/20` instead of the linear interpolation
`1/2` of the two elevations: the claim's interpolation statement is false as
stated. -/
theorem evalCenterZ_tiny_gap_cex :
    evalCenterZ [⟨0, 0⟩, ⟨1 / 10 ^ 10, 1⟩] 0 0 1 (1 / (2 * 10 ^ 10)) = 1 / 20 ∧
    lerpQ 0 1 ((1 / (2 * 10 ^ 10) - 0) / (1 / 10 ^ 10 - 0)) = 1 / 2 ∧
    (1 / 20 : ℚ) ≠ 1 / 2 := by
  refine ⟨?_, by norm_num [lerpQ], by norm_num⟩
  norm_num [evalCenterZ, sortByS, insertGP, evalSorted, List.getLast, scanSeg, lerpQ, max_def]

/-! ## Real-valued geometry

The remaining kernels use square roots and trigonometry (THREE.Vector2
`length`/`normalize`/`distanceTo`, `acos`, `tan`, `atan2`, `cos`, `sin`),
embedded over `ℝ`; the definitions are noncomputable because `Real.sqrt`
and the order on `ℝ` are. -/

noncomputable section

/-- A THREE.Vector2. -/
abbrev V := ℝ × ℝ

/-- THREE.Vector2.length: `sqrt(x*x + y*y)`. -/
def vlength (a : V) : ℝ := Real.sqrt (a.1 * a.1 + a.2 * a.2)

/-- THREE.Vector2.normalize: `divideScalar(length() || 1)` — a zero-length
vector is divided by 1 and stays `(0, 0)`. -/
def vnormalize (a : V) : V :=
  let l := vlength a
  let d := if l = 0 then 1 else l
  (a.1 / d, a.2 / d)

/-- THREE.Vector2.distanceTo. -/
def vdist (a b : V) : ℝ :=
  Real.sqrt ((a.1 - b.1) * (a.1 - b.1) + (a.2 - b.2) * (a.2 - b.2))

/-- THREE.Vector2.dot. -/
def dotV (a b : V) : ℝ := a.1 * b.1 + a.2 * b.2

/-- Scalar multiple of a vector (THREE multiplyScalar). -/
def vscale (k : ℝ) (a : V) : V := (k * a.1, k * a.2)

/-- THREE.MathUtils.clamp: `max(min, Math.min(max, value))`. -/
def clampR (v lo hi : ℝ) : ℝ := max lo (min hi v)

/-- THREE.MathUtils.lerp over `ℝ`. -/
def lerpR (x y t : ℝ) : ℝ := (1 - t) * x + t * y

/-- JS `Math.sign` over `ℝ`. -/
def signR (x : ℝ) : ℝ := if x < 0 then -1 else if 0 < x then 1 else 0

/-- JS `Math.sign(x) || 1` over `ℝ`. -/
def signOr1R (x : ℝ) : ℝ := if signR x = 0 then 1 else signR x

/-! ### Deduplication and chainages (alignment.ts) -/

/-- The body of `dedupe`: each input point is compared with its predecessor
in the ORIGINAL list (`pts[i-1]`), not with the last kept point. -/
def dedupeAux (prev : V) : List V → List V
  | [] => []
  | p :: rest => (if p = prev then [] else [p]) ++ dedupeAux p rest

/-- `dedupe` from alignment.ts: drop each point exactly equal
(THREE `.equals`) to its predecessor in the input. -/
def dedupe : List V → List V
  | [] => []
  | p :: rest => p :: dedupeAux p rest

/-- `approxEqual` from alignment.ts: coordinatewise within `eps`. -/
def approxEqual (a b : V) (eps : ℝ) : Prop :=
  |a.1 - b.1| ≤ eps ∧ |a.2 - b.2| ≤ eps

instance (a b : V) (eps : ℝ) : Decidable (approxEqual a b eps) := by
  unfold approxEqual
  infer_instance

/-- The body of `dedupeEps`: each input point is compared with its
predecessor in the ORIGINAL list (`pts[i-1]`), not with the last kept point. -/
def dedupeEpsAux (eps : ℝ) (prev : V) : List V → List V
  | [] => []
  | p :: rest => (if approxEqual p prev eps then [] else [p]) ++ dedupeEpsAux eps p rest

/-- `dedupeEps` from alignment.ts with its default `eps = 1e-9`. -/
def dedupeEps : List V → List V
  | [] => []
  | p :: rest => p :: dedupeEpsAux (1 / 10 ^ 9) p rest

/-- The body of `cumulativeDistances`: prefix sums of consecutive distances. -/
def cumDistAux (prev : V) (acc : ℝ) : List V → List ℝ
  | [] => []
  | p :: rest => (acc + vdist prev p) :: cumDistAux p (acc + vdist prev p) rest

/-- `cumulativeDistances` from alignment.ts: `cum = [0]`, then
`cum[i] = cum[i-1] + dist(pts[i], pts[i-1])` (so the output is `[0]` even
for an empty input, as in the source). -/
def cumulativeDistances : List V → List ℝ
  | [] => [0]
  | p :: rest => 0 :: cumDistAux p 0 rest

lemma vdist_nonneg (a b : V) : 0 ≤ vdist a b := Real.sqrt_nonneg _

lemma vdist_pos_of_ne {a b : V} (h : a ≠ b) : 0 < vdist a b := by
  rw [vdist, Real.sqrt_pos]
  have hor : a.1 ≠ b.1 ∨ a.2 ≠ b.2 := by
    by_contra hc
    push_neg at hc
    exact h (Prod.ext_iff.mpr ⟨hc.1, hc.2⟩)
  rcases hor with h1 | h1
  · have : 0 < (a.1 - b.1) * (a.1 - b.1) := by
      have : a.1 - b.1 ≠ 0 := sub_ne_zero_of_ne h1
      exact mul_self_pos.mpr this
    nlinarith [mul_self_nonneg (a.2 - b.2)]
  · have : 0 < (a.2 - b.2) * (a.2 - b.2) := by
      have : a.2 - b.2 ≠ 0 := sub_ne_zero_of_ne h1
      exact mul_self_pos.mpr this
    nlinarith [mul_self_nonneg (a.1 - b.1)]

lemma cumDistAux_chain_le : ∀ (l : List V) (prev : V) (acc : ℝ),
    List.Chain' (· ≤ ·) (acc :: cumDistAux prev acc l) := by
  intro l
  induction l with
  | nil =>
      intro prev acc
      simp [cumDistAux]
  | cons p rest ih =>
      intro prev acc
      rw [cumDistAux, List.chain'_cons]
      exact ⟨by linarith [vdist_nonneg prev p], ih p _⟩

lemma cumDistAux_increments : ∀ (l : List V) (prev : V) (acc : ℝ),
    List.zipWith (fun c c' => c' - c) (acc :: cumDistAux prev acc l) (cumDistAux prev acc l)
      = List.zipWith vdist (prev :: l) l := by
  intro l
  induction l with
  | nil => intro prev acc; rfl
  | cons p rest ih =>
      intro prev acc
      rw [cumDistAux]
      show (acc + vdist prev p - acc) :: List.zipWith _ _ _ = vdist prev p :: List.zipWith vdist _ _
      rw [add_sub_cancel_left, ih p (acc + vdist prev p)]

lemma dedupeAux_chain_ne : ∀ (l : List V) (prev : V),
    List.Chain' (fun p q : V => p ≠ q) (prev :: dedupeAux prev l) := by
  intro l
  induction l with
  | nil =>
      intro prev
      simp [dedupeAux]
  | cons p rest ih =>
      intro prev
      rw [dedupeAux]
      by_cases hp : p = prev
      · rw [if_pos hp, List.nil_append, hp]
        exact ih prev
      · rw [if_neg hp, List.cons_append, List.nil_append, List.chain'_cons]
        exact ⟨fun hc => hp hc.symm, ih p⟩

lemma cumDistAux_chain_lt : ∀ (l : List V) (prev : V) (acc : ℝ),
    List.Chain' (fun p q : V => p ≠ q) (prev :: l) →
    List.Chain' (· < ·) (acc :: cumDistAux prev acc l) := by
  intro l
  induction l with
  | nil =>
      intro prev acc _
      simp [cumDistAux]
  | cons p rest ih =>
      intro prev acc h
      rw [cumDistAux, List.chain'_cons]
      have hne : prev ≠ p := (List.chain'_cons.mp h).1
      exact ⟨by linarith [vdist_pos_of_ne hne], ih p _ (List.chain'_cons.mp h).2⟩

/-- C7 (amended): for every point list, the chainage sequence computed by
`cumulativeDistances` is non-decreasing, its increments are exactly the
Euclidean distances of consecutive points (each cumulative value is the
previous one plus a non-negative distance), and after the EXACT-equality
`dedupe` that `Alignment.setPolyline` and the constructor apply before
chainages are computed, consecutive points are distinct, so the chainages
strictly increase.  (The epsilon-dedup `dedupeEps` of the builder alone does
not guarantee distinct consecutive points — see the counterexample.) -/
theorem cumulativeDistances_monotone (pts : List V) :
    List.Chain' (· ≤ ·) (cumulativeDistances pts) ∧
    List.zipWith (fun c c' => c' - c) (cumulativeDistances pts)
        (cumulativeDistances pts).tail = List.zipWith vdist pts pts.tail ∧
    List.Chain' (fun p q : V => p ≠ q) (dedupe pts) ∧
    List.Chain' (· < ·) (cumulativeDistances (dedupe pts)) := by
  refine ⟨?_, ?_, ?_, ?_⟩
  · cases pts with
    | nil => simp [cumulativeDistances]
    | cons p rest => exact cumDistAux_chain_le rest p 0
  · cases pts with
    | nil => rfl
    | cons p rest => exact cumDistAux_increments rest p 0
  · cases pts with
    | nil => simp [dedupe]
    | cons p rest => exact dedupeAux_chain_ne rest p
  · cases pts with
    | nil => simp [dedupe, cumulativeDistances]
    | cons p rest =>
        rw [dedupe, cumulativeDistances]
        exact cumDistAux_chain_lt _ p 0 (dedupeAux_chain_ne rest p)

/-- C7 counterexample: the epsilon-dedup compares each point with its
predecessor in the ORIGINAL list, so a chain of sub-epsilon steps can hide a
return to an earlier position: on
`[(0,0), (1e-9,0), (2e-9,0), (0,0)]` it keeps `[(0,0), (0,0)]` — two equal
consecutive points — and the chainages `[0, 0]` do not strictly increase,
refuting the claim that the epsilon-dedup makes consecutive sampled points
distinct and chainages strictly increasing. -/
theorem dedupeEps_not_strictly_increasing_cex :
    dedupeEps [((0 : ℝ), (0 : ℝ)), (1 / 10 ^ 9, 0), (2 / 10 ^ 9, 0), (0, 0)]
        = [(0, 0), (0, 0)] ∧
    ¬ List.Chain' (fun p q : V => p ≠ q)
        (dedupeEps [((0 : ℝ), (0 : ℝ)), (1 / 10 ^ 9, 0), (2 / 10 ^ 9, 0), (0, 0)]) ∧
    cumulativeDistances
        (dedupeEps [((0 : ℝ), (0 : ℝ)), (1 / 10 ^ 9, 0), (2 / 10 ^ 9, 0), (0, 0)]) = [0, 0] ∧
    ¬ List.Chain' (· < ·) (cumulativeDistances
        (dedupeEps [((0 : ℝ), (0 : ℝ)), (1 / 10 ^ 9, 0), (2 / 10 ^ 9, 0), (0, 0)])) := by
  have h1 : dedupeEps [((0 : ℝ), (0 : ℝ)), (1 / 10 ^ 9, 0), (2 / 10 ^ 9, 0), (0, 0)]
      = [(0, 0), (0, 0)] := by
    rw [dedupeEps, dedupeEpsAux, if_pos (by constructor <;> norm_num [abs_le]),
      List.nil_append, dedupeEpsAux, if_pos (by constructor <;> norm_num [abs_le]),
      List.nil_append, dedupeEpsAux,
      if_neg (fun hc => by have := hc.1; rw [abs_le] at this; norm_num at this),
      List.cons_append, List.nil_append, dedupeEpsAux]
  have h3 : cumulativeDistances
      (dedupeEps [((0 : ℝ), (0 : ℝ)), (1 / 10 ^ 9, 0), (2 / 10 ^ 9, 0), (0, 0)]) = [0, 0] := by
    rw [h1, cumulativeDistances, cumDistAux, cumDistAux, vdist]
    norm_num [Real.sqrt_zero]
  refine ⟨h1, ?_, h3, ?_⟩
  · rw [h1]
    simp [List.chain'_cons]
  · rw [h3]
    simp [List.chain'_cons]

/-! ### Closest point and end-area volumes (alignment.ts and profile.ts) -/

/-- Result record of `Alignment.closestPointTo`. -/
structure ClosestPointResult where
  point : V
  tangent : V
  segmentIndex : ℕ
  chainage : ℝ
  distance : ℝ

/-- The candidate record computed by one iteration of `closestPointTo`'s
segment scan: clamped projection onto segment `i`, its distance, tangent and
chainage `cum[i] + segLen * t` (with the `max(1e-12, lengthSq)` floor). -/
def closestCandidate (points : List V) (cum : List ℝ) (q : V) (i : ℕ) : ClosestPointResult :=
  let a := points.getD i (0, 0)
  let b := points.getD (i + 1) (0, 0)
  let ab := (b.1 - a.1, b.2 - a.2)
  let abLen2 := max (1 / 10 ^ 12) (ab.1 * ab.1 + ab.2 * ab.2)
  let t := clampR (((q.1 - a.1) * ab.1 + (q.2 - a.2) * ab.2) / abLen2) 0 1
  let p := (a.1 + ab.1 * t, a.2 + ab.2 * t)
  ⟨p, vnormalize ab, i, cum.getD i 0 + Real.sqrt abLen2 * t, vdist p q⟩

/-- The `d < bestDist` scan of `closestPointTo`: keep the first strict
minimum. -/
def scanBest : ClosestPointResult → List ClosestPointResult → ClosestPointResult
  | best, [] => best
  | best, c :: rest => scanBest (if c.distance < best.distance then c else best) rest

/-- `Alignment.closestPointTo`: scan every segment and keep the closest
projection.  The JS code seeds the scan with `bestDist = +∞` and a dummy
record; for a nonempty candidate list the first comparison always succeeds,
so seeding with the first candidate is equivalent.  With fewer than two
points no candidate exists and the JS dummy record (distance `+∞`, here
modelled with distance 0 — unused by any claim) is returned. -/
def closestPointTo (points : List V) (cum : List ℝ) (q : V) : ClosestPointResult :=
  match (List.range (points.length - 1)).map (closestCandidate points cum q) with
  | [] => ⟨(0, 0), (1, 0), 0, 0, 0⟩
  | c :: rest => scanBest c rest

/-- The template fields used by the volume computation. -/
structure RoadTemplateV where
  laneWidth : ℝ
  crossfallLane : ℝ

/-- The `slopeAt` closure of `computeCrossSectionAreaAt` (both branches of
the source's conditional are `crossfallLane`). -/
def slopeAt (tpl : RoadTemplateV) (offset : ℝ) : ℝ :=
  (if |offset| ≤ tpl.laneWidth then tpl.crossfallLane else tpl.crossfallLane) * signR offset

/-- Sum of consecutive distances: the `pts.reduce` of
`computeCrossSectionAreaAt`. -/
def distSum (pts : List V) : ℝ := (List.zipWith vdist pts pts.tail).sum

/-- The centre-elevation computation of `computeCrossSectionAreaAt`
(profile.ts lines 1071-1078): straight two-IP profile interpolated at the
closest-point chainage, with the `|| 1` guard on the total length. -/
def centerZFor (heightAt : ℝ → ℝ → ℝ) (alignPts : List V) (pointOnCenter : V) : ℝ :=
  let p0 := alignPts.getD 0 (0, 0)
  let pn := alignPts.getD (alignPts.length - 1) (0, 0)
  let zStart := heightAt p0.1 p0.2
  let zEnd := heightAt pn.1 pn.2
  let closest := closestPointTo alignPts (cumulativeDistances alignPts) pointOnCenter
  let totalLen0 := distSum alignPts
  let totalLen := if totalLen0 = 0 then 1 else totalLen0
  let tGrade := clampR (closest.chainage / totalLen) 0 1
  lerpR zStart zEnd tGrade

/-- `computeCrossSectionAreaAt` from profile.ts: sample `samples` offsets
across the template width, accumulate signed strip areas
`(design - terrain) * stripWidth` into fill (positive) and cut (negative,
negated) accumulators; returns `(cut, fill)`. -/
def computeCrossSectionAreaAt (heightAt : ℝ → ℝ → ℝ) (alignPts : List V)
    (pointOnCenter perpDir : V) (tpl : RoadTemplateV) (samples : ℕ) : ℝ × ℝ :=
  let dir := vnormalize perpDir
  let half := tpl.laneWidth
  let offsets := (List.range samples).map
    (fun i => -half + 2 * half * ((i : ℝ) / ((samples : ℝ) - 1)))
  let centerZ := centerZFor heightAt alignPts pointOnCenter
  (List.zip offsets offsets.tail).foldl
    (fun acc p =>
      let oMid := (p.1 + p.2) / 2
      let zSurf := heightAt (pointOnCenter.1 + dir.1 * oMid) (pointOnCenter.2 + dir.2 * oMid)
      let zDesign := centerZ + slopeAt tpl oMid * oMid
      let area := (zDesign - zSurf) * (p.2 - p.1)
      if 0 < area then (acc.1, acc.2 + area) else (acc.1 + -area, acc.2))
    (0, 0)

/-- `computeVolumesEndArea` from profile.ts: trapezoidal end-area rule over
consecutive centerline points, skipping segments shorter than `1e-6`;
returns `(cut, fill)` totals. -/
def computeVolumesEndArea (heightAt : ℝ → ℝ → ℝ) (pts : List V) (tpl : RoadTemplateV)
    (samples : ℕ) : ℝ × ℝ :=
  if pts.length < 2 then (0, 0)
  else
    (List.zip pts pts.tail).foldl
      (fun acc ab =>
        let segLen := vdist ab.1 ab.2
        if segLen ≤ 1 / 10 ^ 6 then acc
        else
          let tanV := vnormalize (ab.2.1 - ab.1.1, ab.2.2 - ab.1.2)
          let perp := vnormalize (-tanV.2, tanV.1)
          let areaA := computeCrossSectionAreaAt heightAt pts ab.1 perp tpl samples
          let areaB := computeCrossSectionAreaAt heightAt pts ab.2 perp tpl samples
          (acc.1 + segLen * (1 / 2) * (areaA.1 + areaB.1),
            acc.2 + segLen * (1 / 2) * (areaA.2 + areaB.2)))
      (0, 0)

lemma area_foldl_zero (heightAt : ℝ → ℝ → ℝ) (pointOnCenter dir : V) (cz : ℝ)
    (tpl : RoadTemplateV)
    (H : ∀ o : ℝ, heightAt (pointOnCenter.1 + dir.1 * o) (pointOnCenter.2 + dir.2 * o)
        = cz + slopeAt tpl o * o) :
    ∀ (l : List (ℝ × ℝ)) (acc : ℝ × ℝ),
      l.foldl
        (fun acc p =>
          let oMid := (p.1 + p.2) / 2
          let zSurf := heightAt (pointOnCenter.1 + dir.1 * oMid) (pointOnCenter.2 + dir.2 * oMid)
          let zDesign := cz + slopeAt tpl oMid * oMid
          let area := (zDesign - zSurf) * (p.2 - p.1)
          if 0 < area then (acc.1, acc.2 + area) else (acc.1 + -area, acc.2))
        acc = acc := by
  intro l
  set step : ℝ × ℝ → ℝ × ℝ → ℝ × ℝ := fun acc p =>
    let oMid := (p.1 + p.2) / 2
    let zSurf := heightAt (pointOnCenter.1 + dir.1 * oMid) (pointOnCenter.2 + dir.2 * oMid)
    let zDesign := cz + slopeAt tpl oMid * oMid
    let area := (zDesign - zSurf) * (p.2 - p.1)
    if 0 < area then (acc.1, acc.2 + area) else (acc.1 + -area, acc.2) with hdef
  induction l with
  | nil => intro acc; rfl
  | cons p rest ih =>
      intro acc
      rw [List.foldl_cons]
      have hz : (cz + slopeAt tpl ((p.1 + p.2) / 2) * ((p.1 + p.2) / 2) -
          heightAt (pointOnCenter.1 + dir.1 * ((p.1 + p.2) / 2))
            (pointOnCenter.2 + dir.2 * ((p.1 + p.2) / 2))) * (p.2 - p.1) = 0 := by
        rw [H ((p.1 + p.2) / 2)]
        ring
      have hstep : step acc p = acc := by
        rw [hdef]
        show (if 0 < (cz + slopeAt tpl ((p.1 + p.2) / 2) * ((p.1 + p.2) / 2) -
            heightAt (pointOnCenter.1 + dir.1 * ((p.1 + p.2) / 2))
              (pointOnCenter.2 + dir.2 * ((p.1 + p.2) / 2))) * (p.2 - p.1) then _ else _) = acc
        rw [if_neg (by rw [hz]; exact lt_irrefl 0), hz]
        show (acc.1 + -0, acc.2) = acc
        rw [neg_zero, add_zero]
      rw [hstep]
      exact ih acc

lemma computeCrossSectionAreaAt_zero (heightAt : ℝ → ℝ → ℝ) (alignPts : List V)
    (pointOnCenter perpDir : V) (tpl : RoadTemplateV) (samples : ℕ)
    (H : ∀ o : ℝ, heightAt (pointOnCenter.1 + (vnormalize perpDir).1 * o)
          (pointOnCenter.2 + (vnormalize perpDir).2 * o)
        = centerZFor heightAt alignPts pointOnCenter + slopeAt tpl o * o) :
    computeCrossSectionAreaAt heightAt alignPts pointOnCenter perpDir tpl samples = (0, 0) := by
  rw [computeCrossSectionAreaAt]
  exact area_foldl_zero heightAt pointOnCenter (vnormalize perpDir)
    (centerZFor heightAt alignPts pointOnCenter) tpl H _ (0, 0)

/-- C4: if the terrain height function equals the template's design
elevation at every point of every cross-section line (`p + d * o` for every
base point `p`, direction `d` and offset `o`, with design elevation
`centerZFor p + slopeAt o * o` exactly as the code computes it), then the
end-area volume computation returns cut = 0 and fill = 0, for any template,
centerline and sample count. -/
theorem computeVolumesEndArea_zero_on_design_terrain (heightAt : ℝ → ℝ → ℝ)
    (pts : List V) (tpl : RoadTemplateV) (samples : ℕ)
    (H : ∀ (p d : V) (o : ℝ), heightAt (p.1 + d.1 * o) (p.2 + d.2 * o)
        = centerZFor heightAt pts p + slopeAt tpl o * o) :
    computeVolumesEndArea heightAt pts tpl samples = (0, 0) := by
  rw [computeVolumesEndArea]
  by_cases hlen : pts.length < 2
  · rw [if_pos hlen]
  · rw [if_neg hlen]
    set step : ℝ × ℝ → V × V → ℝ × ℝ := fun acc ab =>
      let segLen := vdist ab.1 ab.2
      if segLen ≤ 1 / 10 ^ 6 then acc
      else
        let tanV := vnormalize (ab.2.1 - ab.1.1, ab.2.2 - ab.1.2)
        let perp := vnormalize (-tanV.2, tanV.1)
        let areaA := computeCrossSectionAreaAt heightAt pts ab.1 perp tpl samples
        let areaB := computeCrossSectionAreaAt heightAt pts ab.2 perp tpl samples
        (acc.1 + segLen * (1 / 2) * (areaA.1 + areaB.1),
          acc.2 + segLen * (1 / 2) * (areaA.2 + areaB.2)) with hdef
    have hstep : ∀ (acc : ℝ × ℝ) (ab : V × V), step acc ab = acc := by
      intro acc ab
      have hA := computeCrossSectionAreaAt_zero heightAt pts ab.1
        (vnormalize (-(vnormalize (ab.2.1 - ab.1.1, ab.2.2 - ab.1.2)).2,
          (vnormalize (ab.2.1 - ab.1.1, ab.2.2 - ab.1.2)).1)) tpl samples
        (fun o => H ab.1 _ o)
      have hB := computeCrossSectionAreaAt_zero heightAt pts ab.2
        (vnormalize (-(vnormalize (ab.2.1 - ab.1.1, ab.2.2 - ab.1.2)).2,
          (vnormalize (ab.2.1 - ab.1.1, ab.2.2 - ab.1.2)).1)) tpl samples
        (fun o => H ab.2 _ o)
      rw [hdef]
      by_cases hseg : vdist ab.1 ab.2 ≤ 1 / 10 ^ 6
      · show (if vdist ab.1 ab.2 ≤ 1 / 10 ^ 6 then _ else _) = acc
        rw [if_pos hseg]
      · show (if vdist ab.1 ab.2 ≤ 1 / 10 ^ 6 then _ else _) = acc
        rw [if_neg hseg]
        show (acc.1 + vdist ab.1 ab.2 * (1 / 2) *
            ((computeCrossSectionAreaAt heightAt pts ab.1 _ tpl samples).1 +
              (computeCrossSectionAreaAt heightAt pts ab.2 _ tpl samples).1),
          acc.2 + vdist ab.1 ab.2 * (1 / 2) *
            ((computeCrossSectionAreaAt heightAt pts ab.1 _ tpl samples).2 +
              (computeCrossSectionAreaAt heightAt pts ab.2 _ tpl samples).2)) = acc
        rw [hA, hB]
        show (acc.1 + vdist ab.1 ab.2 * (1 / 2) * ((0 : ℝ) + (0 : ℝ)),
          acc.2 + vdist ab.1 ab.2 * (1 / 2) * ((0 : ℝ) + (0 : ℝ))) = acc
        rw [add_zero, mul_zero, add_zero, add_zero]
    generalize List.zip pts pts.tail = l
    induction l with
    | nil => rfl
    | cons ab rest ih =>
        rw [List.foldl_cons, hstep (0, 0) ab]
        exact ih

/-- C4 witness: flat terrain at elevation 10, zero crossfall, a two-point
centerline; the design-equals-terrain hypothesis is discharged by
simplification (the two-IP profile interpolates 10 to 10) and the volumes
are zero. -/
theorem computeVolumesEndArea_zero_on_design_terrain_witness :
    (∀ (p d : V) (o : ℝ), (fun _ _ => (10 : ℝ)) (p.1 + d.1 * o) (p.2 + d.2 * o)
        = centerZFor (fun _ _ => (10 : ℝ)) [((0 : ℝ), (0 : ℝ)), (1, 0)] p
            + slopeAt ⟨7 / 2, 0⟩ o * o) ∧
    computeVolumesEndArea (fun _ _ => (10 : ℝ)) [((0 : ℝ), (0 : ℝ)), (1, 0)] ⟨7 / 2, 0⟩ 200
      = (0, 0) := by
  have H : ∀ (p d : V) (o : ℝ), (fun _ _ => (10 : ℝ)) (p.1 + d.1 * o) (p.2 + d.2 * o)
      = centerZFor (fun _ _ => (10 : ℝ)) [((0 : ℝ), (0 : ℝ)), (1, 0)] p
          + slopeAt ⟨7 / 2, 0⟩ o * o := by
    intro p d o
    show (10 : ℝ) = centerZFor (fun _ _ => (10 : ℝ)) [((0 : ℝ), (0 : ℝ)), (1, 0)] p
        + slopeAt ⟨7 / 2, 0⟩ o * o
    rw [centerZFor, slopeAt]
    show (10 : ℝ) = lerpR 10 10 _ + (if |o| ≤ 7 / 2 then 0 else 0) * signR o * o
    rw [lerpR, ite_self]
    ring
  exact ⟨H, computeVolumesEndArea_zero_on_design_terrain (fun _ _ => (10 : ℝ))
    [((0 : ℝ), (0 : ℝ)), (1, 0)] ⟨7 / 2, 0⟩ 200 H⟩

/-! ### Fillet construction (`buildFilletedPolylineFromIPs` in alignment.ts) -/

/-- `rotate90` from alignment.ts: `(-y, x)`. -/
def rotate90 (v : V) : V := (-v.2, v.1)

/-- `intersectLines` from alignment.ts: solve `p1 + t d1 = p2 + u d2`,
refusing near-parallel directions. -/
def intersectLines (p1 d1 p2 d2 : V) : Option V :=
  let denom := d1.1 * d2.2 - d1.2 * d2.1
  if |denom| < 1 / 10 ^ 12 then none
  else
    let dx := p2.1 - p1.1
    let dy := p2.2 - p1.2
    let t := (dx * d2.2 - dy * d2.1) / denom
    some (p1.1 + d1.1 * t, p1.2 + d1.2 * t)

/-- A corner record of `buildFilletedPolylineFromIPs`: tangency points,
centre, realized radius and sweep orientation. -/
structure Corner where
  T1 : V
  T2 : V
  center : V
  R : ℝ
  ccw : Bool

/-- The corner's interior angle `theta = acos(clamp(dIn . dOut, -1, 1))`. -/
def thetaOf (A B C : V) : ℝ :=
  Real.arccos (clampR (dotV (vnormalize (B.1 - A.1, B.2 - A.2))
    (vnormalize (C.1 - B.1, C.2 - B.2))) (-1) 1)

/-- The corner's `tanHalf = tan(theta / 2)`. -/
def tanHalfOf (A B C : V) : ℝ := Real.tan (thetaOf A B C / 2)

/-- The per-corner body of the fillet loop (alignment.ts lines 244-292):
skip near-straight or near-reversal corners, clamp the requested radius so
the needed tangent length fits the shorter leg minus `1e-6` (skipping the
corner when the clamped radius falls to `1e-6` or below), offset the legs
inward and intersect them for the centre, and derive the tangency points.
The source's `Number.isFinite(Ruse)` test is always true here because
`tanHalf` is nonzero past the `1e-9` guard and `ℝ` has no infinities.
`cornerFinish` names the tail of the loop body: offset the legs inward by
the realized radius, intersect for the centre, and drop perpendiculars for
the tangency points. -/
def cornerFinish (B dIn dOut : V) (s Ruse : ℝ) : Option Corner :=
  let nIn := vscale s (rotate90 dIn)
  let nOut := vscale s (rotate90 dOut)
  match intersectLines (B.1 + nIn.1 * Ruse, B.2 + nIn.2 * Ruse) dIn
      (B.1 + nOut.1 * Ruse, B.2 + nOut.2 * Ruse) dOut with
  | none => none
  | some center =>
      some ⟨(center.1 - nIn.1 * Ruse, center.2 - nIn.2 * Ruse),
        (center.1 - nOut.1 * Ruse, center.2 - nOut.2 * Ruse),
        center, Ruse, if 0 < s then true else false⟩

def cornerAt (A B C : V) (radius : ℝ) (rOverride : Option ℝ) : Option Corner :=
  let dIn := vnormalize (B.1 - A.1, B.2 - A.2)
  let dOut := vnormalize (C.1 - B.1, C.2 - B.2)
  let turn := dIn.1 * dOut.2 - dIn.2 * dOut.1
  let theta := thetaOf A B C
  if ¬(1 / 10 ^ 3 < theta ∧ theta < Real.pi - 1 / 10 ^ 3) then none
  else
    let lenIn := vdist A B
    let lenOut := vdist B C
    let tanHalf := tanHalfOf A B C
    if |tanHalf| < 1 / 10 ^ 9 then none
    else
      let Rcorner := rOverride.getD radius
      let Ruse0 := max (1 / 10 ^ 6) Rcorner
      let tNeeded := Ruse0 * tanHalf
      let tMax := max 0 (min lenIn lenOut - 1 / 10 ^ 6)
      let Ruse := if tMax < tNeeded then tMax / tanHalf else Ruse0
      if tMax < tNeeded ∧ Ruse ≤ 1 / 10 ^ 6 then none
      else cornerFinish B dIn dOut (signOr1R turn) Ruse

/-- `sampleLine` from alignment.ts: `max 2 ⌈len/step⌉` points including both
endpoints. -/
def sampleLine (a b : V) (step : ℝ) : List V :=
  let ab := (b.1 - a.1, b.2 - a.2)
  let n := max 2 ⌈vlength ab / step⌉.toNat
  (List.range n).map (fun i : ℕ =>
    (a.1 + ab.1 * ((i : ℝ) / ((n : ℝ) - 1)), a.2 + ab.2 * ((i : ℝ) / ((n : ℝ) - 1))))

/-- `sampleLineOpen` from alignment.ts: same spacing but the final endpoint
is excluded, and the step has a `1e-9` floor. -/
def sampleLineOpen (a b : V) (step : ℝ) : List V :=
  let ab := (b.1 - a.1, b.2 - a.2)
  let n := max 2 ⌈vlength ab / max (1 / 10 ^ 9) step⌉.toNat
  (List.range (n - 1)).map (fun i : ℕ =>
    (a.1 + ab.1 * ((i : ℝ) / ((n : ℝ) - 1)), a.2 + ab.2 * ((i : ℝ) / ((n : ℝ) - 1))))

/-- `sampleArcClosed` from alignment.ts: points of the arc at lerped angles,
both endpoints included. -/
def sampleArcClosed (center : V) (radius a0 a1 : ℝ) (samples : ℕ) : List V :=
  (List.range samples).map (fun i : ℕ =>
    let ang := lerpR a0 a1 ((i : ℝ) / ((samples : ℝ) - 1))
    (center.1 + radius * Real.cos ang, center.2 + radius * Real.sin ang))

/-- JS `Math.atan2(y, x)`. -/
def atan2 (y x : ℝ) : ℝ :=
  if 0 < x then Real.arctan (y / x)
  else if x < 0 then
    (if 0 ≤ y then Real.arctan (y / x) + Real.pi else Real.arctan (y / x) - Real.pi)
  else if 0 < y then Real.pi / 2
  else if y < 0 then -(Real.pi / 2)
  else 0

/-- The closed form of the stitching loop `while (end < start) end += 2π`:
adding the smallest number of full turns that brings `e` to at least
`start` (zero turns when `e ≥ start` already, as when the loop is skipped). -/
def wrapCcw (start e : ℝ) : ℝ :=
  e + 2 * Real.pi * ((max 0 ⌈(start - e) / (2 * Real.pi)⌉ : ℤ) : ℝ)

/-- The closed form of `while (end > start) end -= 2π`. -/
def wrapCw (start e : ℝ) : ℝ :=
  e - 2 * Real.pi * ((max 0 ⌈(e - start) / (2 * Real.pi)⌉ : ℤ) : ℝ)

/-- The arc part of one stitching step (alignment.ts lines 309-321):
angles of the tangency points around the centre, sweep normalised by turn
orientation, and `max 2 ⌈arcLen / max(1e-6, arcStep)⌉` samples. -/
def arcSamples (c : Corner) (arcStep : ℝ) : List V :=
  let a0 := atan2 (c.T1.2 - c.center.2) (c.T1.1 - c.center.1)
  let a1 := atan2 (c.T2.2 - c.center.2) (c.T2.1 - c.center.1)
  let e := if c.ccw then wrapCcw a0 a1 else wrapCw a0 a1
  let arcLen := |(e - a0) * c.R|
  let samples := max 2 ⌈arcLen / max (1 / 10 ^ 6) arcStep⌉.toNat
  sampleArcClosed c.center c.R a0 e samples

/-- The corner table `corners[i]` (null outside `1 ≤ i ≤ n - 2`), with the
per-corner radius override `radiiPerCorner[i]` resolved against the default. -/
def cornersFor (ips : List V) (radius : ℝ) (radii : List (Option ℝ)) (i : ℕ) : Option Corner :=
  if 1 ≤ i ∧ i + 2 ≤ ips.length then
    cornerAt (ips.getD (i - 1) (0, 0)) (ips.getD i (0, 0)) (ips.getD (i + 1) (0, 0)) radius
      (radii.getD i none)
  else none

/-- One iteration of the stitching loop (alignment.ts lines 296-323): the
open straight segment from the previous corner's outgoing tangency (or the
IP) to the next corner's incoming tangency (or the next IP), followed by the
next corner's closed arc samples. -/
def stitchPiece (ips : List V) (radius lineStep arcStep : ℝ) (radii : List (Option ℝ))
    (i : ℕ) : List V :=
  let P := ips.getD i (0, 0)
  let Q := ips.getD (i + 1) (0, 0)
  let leftCorner := cornersFor ips radius radii i
  let rightCorner := cornersFor ips radius radii (i + 1)
  let segStart := (leftCorner.map Corner.T2).getD P
  let segEnd := (rightCorner.map Corner.T1).getD Q
  (if 1 / 10 ^ 9 < vdist segStart segEnd then sampleLineOpen segStart segEnd lineStep else [])
    ++ (match rightCorner with
      | none => []
      | some c => arcSamples c arcStep)

/-- `buildFilletedPolylineFromIPs` from alignment.ts: empty and singleton
inputs pass through, two IPs sample a straight segment (exact dedupe), and
three or more IPs stitch straight pieces and corner arcs, epsilon-deduped. -/
def buildFilletedPolylineFromIPs (ips : List V) (radius lineStep arcStep : ℝ)
    (radii : List (Option ℝ)) : List V :=
  match ips with
  | [] => []
  | [p] => [p]
  | [p, q] => dedupe (sampleLine p q lineStep)
  | _ => dedupeEps ((List.range (ips.length - 1)).flatMap
      (stitchPiece ips radius lineStep arcStep radii))

/-! ### Concrete evaluation helpers over `ℝ` -/

lemma sqrt_eval {x l : ℝ} (hl : 0 ≤ l) (h : x = l * l) : Real.sqrt x = l := by
  rw [h]
  exact Real.sqrt_mul_self hl

lemma vlength_eval {x y l : ℝ} (hl : 0 ≤ l) (h : x * x + y * y = l * l) :
    vlength (x, y) = l := sqrt_eval hl h

lemma vnormalize_eval {x y l : ℝ} (hl : 0 < l) (h : x * x + y * y = l * l) :
    vnormalize (x, y) = (x / l, y / l) := by
  rw [vnormalize, vlength_eval hl.le h, if_neg (ne_of_gt hl)]

lemma vdist_eval {a b : V} {l : ℝ} (hl : 0 ≤ l)
    (h : (a.1 - b.1) * (a.1 - b.1) + (a.2 - b.2) * (a.2 - b.2) = l * l) : vdist a b = l :=
  sqrt_eval hl h

/-- The right-angle corner of the constructor's default alignment: legs of
length 30 along the axes, default radius 10, centre `(0, 5)`, tangency
points `(0, -5)` and `(10, 5)`. -/
lemma corner_default_eval :
    cornerAt (-20, -5) (10, -5) (10, 25) 10 none
      = some ⟨(0, -5), (10, 5), (0, 5), 10, true⟩ := by
  have h30 : vnormalize ((30 : ℝ), (0 : ℝ)) = (1, 0) := by
    rw [vnormalize_eval (l := 30) (by norm_num) (by norm_num)]
    norm_num
  have h030 : vnormalize ((0 : ℝ), (30 : ℝ)) = (0, 1) := by
    rw [vnormalize_eval (l := 30) (by norm_num) (by norm_num)]
    norm_num
  have htheta : thetaOf (-20, -5) (10, -5) (10, 25) = Real.pi / 2 := by
    rw [thetaOf]
    norm_num
    rw [h30, h030]
    rw [show dotV ((1 : ℝ), (0 : ℝ)) (0, 1) = 0 from by rw [dotV]; norm_num]
    rw [show clampR (0 : ℝ) (-1) 1 = 0 from by rw [clampR]; norm_num [min_def, max_def]]
  have htan : tanHalfOf (-20, -5) (10, -5) (10, 25) = 1 := by
    rw [tanHalfOf, htheta, show Real.pi / 2 / 2 = Real.pi / 4 from by ring,
      Real.tan_pi_div_four]
  have hd1 : vdist ((-20 : ℝ), (-5 : ℝ)) (10, -5) = 30 := by
    apply vdist_eval (by norm_num)
    norm_num
  have hd2 : vdist ((10 : ℝ), (-5 : ℝ)) (10, 25) = 30 := by
    apply vdist_eval (by norm_num)
    norm_num
  have hpi1 : (1 : ℝ) / 10 ^ 3 < Real.pi / 2 := by linarith [Real.pi_gt_three]
  have hpi2 : Real.pi / 2 < Real.pi - 1 / 10 ^ 3 := by linarith [Real.pi_gt_three]
  rw [cornerAt]
  norm_num [htheta, htan, hd1, hd2]
  refine ⟨⟨by linarith [Real.pi_gt_three], by linarith [Real.pi_gt_three]⟩, ?_⟩
  rw [h30, h030]
  norm_num [cornerFinish, signOr1R, signR, vscale, rotate90, intersectLines]

/-- A right-angle corner with legs of length 10 and a requested radius of
`1e-7`: the `max(1e-6, R)` floor inflates the realized radius to `1e-6`. -/
lemma corner_small_eval :
    cornerAt (-10, 1) (0, 1) (0, 11) (1 / 10 ^ 7) none
      = some ⟨(-(1 / 10 ^ 6), 1), (0, 1 + 1 / 10 ^ 6), (-(1 / 10 ^ 6), 1 + 1 / 10 ^ 6),
          1 / 10 ^ 6, true⟩ := by
  have h10 : vnormalize ((10 : ℝ), (0 : ℝ)) = (1, 0) := by
    rw [vnormalize_eval (l := 10) (by norm_num) (by norm_num)]
    norm_num
  have h010 : vnormalize ((0 : ℝ), (10 : ℝ)) = (0, 1) := by
    rw [vnormalize_eval (l := 10) (by norm_num) (by norm_num)]
    norm_num
  have htheta : thetaOf (-10, 1) (0, 1) (0, 11) = Real.pi / 2 := by
    rw [thetaOf]
    norm_num
    rw [h10, h010]
    rw [show dotV ((1 : ℝ), (0 : ℝ)) (0, 1) = 0 from by rw [dotV]; norm_num]
    rw [show clampR (0 : ℝ) (-1) 1 = 0 from by rw [clampR]; norm_num [min_def, max_def]]
  have htan : tanHalfOf (-10, 1) (0, 1) (0, 11) = 1 := by
    rw [tanHalfOf, htheta, show Real.pi / 2 / 2 = Real.pi / 4 from by ring,
      Real.tan_pi_div_four]
  have hd1 : vdist ((-10 : ℝ), (1 : ℝ)) (0, 1) = 10 := by
    apply vdist_eval (by norm_num)
    norm_num
  have hd2 : vdist ((0 : ℝ), (1 : ℝ)) (0, 11) = 10 := by
    apply vdist_eval (by norm_num)
    norm_num
  rw [cornerAt]
  norm_num [htheta, htan, hd1, hd2, min_def, max_def]
  refine ⟨⟨by linarith [Real.pi_gt_three], by linarith [Real.pi_gt_three]⟩, ?_⟩
  rw [h10, h010]
  norm_num [cornerFinish, signOr1R, signR, vscale, rotate90, intersectLines]

lemma cornerFinish_R {B dIn dOut : V} {s Ruse : ℝ} {co : Corner}
    (h : cornerFinish B dIn dOut s Ruse = some co) : co.R = Ruse := by
  simp only [cornerFinish] at h
  cases hI : intersectLines (B.1 + (vscale s (rotate90 dIn)).1 * Ruse,
      B.2 + (vscale s (rotate90 dIn)).2 * Ruse) dIn
      (B.1 + (vscale s (rotate90 dOut)).1 * Ruse,
      B.2 + (vscale s (rotate90 dOut)).2 * Ruse) dOut with
  | none =>
      rw [hI] at h
      exact Option.noConfusion h
  | some c =>
      rw [hI] at h
      rw [← Option.some.inj h]

/-- Past the near-straight/near-reversal guard the half-angle tangent is
strictly positive. -/
lemma tanHalfOf_pos {A B C : V} (h1 : 1 / 10 ^ 3 < thetaOf A B C)
    (h2 : thetaOf A B C < Real.pi - 1 / 10 ^ 3) : 0 < tanHalfOf A B C := by
  rw [tanHalfOf]
  apply Real.tan_pos_of_pos_of_lt_pi_div_two
  · linarith
  · linarith

/-- C1 (amended: the source floors every requested radius at `1e-6` via
`Math.max(1e-6, ...)`, so the bound `realized radius ≤ requested radius`
only holds for requests of at least `1e-6`): for a requested corner radius
of at least `1e-6`, any realized corner has radius at most the request and
tangent length `R·tan(θ/2)` at most the leg-length bound
`max 0 (min |AB| |BC| − 1e-6)`; when the clamp fires and drives the clamped
radius to `1e-6` or below, the corner gets no arc; and a corner with no
record contributes no arc samples to the stitched polyline — the piece is
just the straight segment ending at the raw IP (a hard vertex). -/
theorem cornerAt_radius_clamped (A B C : V) (radius : ℝ) (rOverride : Option ℝ)
    (hR : 1 / 10 ^ 6 ≤ rOverride.getD radius) :
    (∀ co : Corner, cornerAt A B C radius rOverride = some co →
        co.R ≤ rOverride.getD radius ∧
        co.R * tanHalfOf A B C ≤ max 0 (min (vdist A B) (vdist B C) - 1 / 10 ^ 6)) ∧
    ((1 / 10 ^ 3 < thetaOf A B C ∧ thetaOf A B C < Real.pi - 1 / 10 ^ 3) →
      max 0 (min (vdist A B) (vdist B C) - 1 / 10 ^ 6)
          < rOverride.getD radius * tanHalfOf A B C →
      max 0 (min (vdist A B) (vdist B C) - 1 / 10 ^ 6) / tanHalfOf A B C ≤ 1 / 10 ^ 6 →
      cornerAt A B C radius rOverride = none) ∧
    (∀ (ips : List V) (ls astep : ℝ) (radii : List (Option ℝ)) (i : ℕ),
      cornersFor ips radius radii (i + 1) = none →
      stitchPiece ips radius ls astep radii i
        = if 1 / 10 ^ 9 < vdist (((cornersFor ips radius radii i).map Corner.T2).getD
              (ips.getD i (0, 0))) (ips.getD (i + 1) (0, 0)) then
            sampleLineOpen (((cornersFor ips radius radii i).map Corner.T2).getD
              (ips.getD i (0, 0))) (ips.getD (i + 1) (0, 0)) ls
          else []) := by
  refine ⟨?_, ?_, ?_⟩
  · intro co hco
    simp only [cornerAt] at hco
    by_cases hg : 1 / 10 ^ 3 < thetaOf A B C ∧ thetaOf A B C < Real.pi - 1 / 10 ^ 3
    · rw [if_neg (not_not_intro hg)] at hco
      by_cases htg : |tanHalfOf A B C| < 1 / 10 ^ 9
      · rw [if_pos htg] at hco
        exact Option.noConfusion hco
      · rw [if_neg htg, max_eq_right hR] at hco
        have htH : 0 < tanHalfOf A B C := tanHalfOf_pos hg.1 hg.2
        by_cases hlt : max 0 (min (vdist A B) (vdist B C) - 1 / 10 ^ 6)
            < rOverride.getD radius * tanHalfOf A B C
        · rw [if_pos hlt] at hco
          by_cases hsk : max 0 (min (vdist A B) (vdist B C) - 1 / 10 ^ 6) / tanHalfOf A B C
              ≤ 1 / 10 ^ 6
          · rw [if_pos ⟨hlt, hsk⟩] at hco
            exact Option.noConfusion hco
          · rw [if_neg (fun hc => hsk hc.2)] at hco
            have hRco := cornerFinish_R hco
            constructor
            · rw [hRco, div_le_iff₀ htH]
              linarith
            · rw [hRco]
              exact le_of_eq (div_mul_cancel₀ _ (ne_of_gt htH))
        · rw [if_neg hlt, if_neg (fun hc => hlt hc.1)] at hco
          have hRco := cornerFinish_R hco
          constructor
          · exact le_of_eq hRco
          · rw [hRco]
            exact not_lt.mp hlt
    · rw [if_pos hg] at hco
      exact Option.noConfusion hco
  · intro hg hlt hle
    simp only [cornerAt]
    rw [if_neg (not_not_intro hg)]
    by_cases htg : |tanHalfOf A B C| < 1 / 10 ^ 9
    · rw [if_pos htg]
    · rw [if_neg htg, max_eq_right hR, if_pos hlt, if_pos ⟨hlt, hle⟩]
  · intro ips ls astep radii i h
    simp only [stitchPiece, h]
    simp

/-- C1 witness: the default corner `(-20,-5), (10,-5), (10,25)` with
requested radius `10 ≥ 1e-6`. -/
theorem cornerAt_radius_clamped_witness :
    ((1 : ℝ) / 10 ^ 6 ≤ (none : Option ℝ).getD 10) ∧
    ((∀ co : Corner, cornerAt (-20, -5) (10, -5) (10, 25) 10 none = some co →
        co.R ≤ (none : Option ℝ).getD 10 ∧
        co.R * tanHalfOf (-20, -5) (10, -5) (10, 25)
          ≤ max 0 (min (vdist (-20, -5) (10, -5)) (vdist (10, -5) (10, 25)) - 1 / 10 ^ 6)) ∧
    ((1 / 10 ^ 3 < thetaOf (-20, -5) (10, -5) (10, 25) ∧
        thetaOf (-20, -5) (10, -5) (10, 25) < Real.pi - 1 / 10 ^ 3) →
      max 0 (min (vdist (-20, -5) (10, -5)) (vdist (10, -5) (10, 25)) - 1 / 10 ^ 6)
          < (none : Option ℝ).getD 10 * tanHalfOf (-20, -5) (10, -5) (10, 25) →
      max 0 (min (vdist (-20, -5) (10, -5)) (vdist (10, -5) (10, 25)) - 1 / 10 ^ 6)
          / tanHalfOf (-20, -5) (10, -5) (10, 25) ≤ 1 / 10 ^ 6 →
      cornerAt (-20, -5) (10, -5) (10, 25) 10 none = none) ∧
    (∀ (ips : List V) (ls astep : ℝ) (radii : List (Option ℝ)) (i : ℕ),
      cornersFor ips 10 radii (i + 1) = none →
      stitchPiece ips 10 ls astep radii i
        = if 1 / 10 ^ 9 < vdist (((cornersFor ips 10 radii i).map Corner.T2).getD
              (ips.getD i (0, 0))) (ips.getD (i + 1) (0, 0)) then
            sampleLineOpen (((cornersFor ips 10 radii i).map Corner.T2).getD
              (ips.getD i (0, 0))) (ips.getD (i + 1) (0, 0)) ls
          else [])) :=
  ⟨by norm_num, cornerAt_radius_clamped (-20, -5) (10, -5) (10, 25) 10 none (by norm_num)⟩

/-- C1 counterexample to the unamended claim: requesting radius `1e-7` at a
right-angle corner with legs of length 10 realizes radius `1e-6` — the
`max(1e-6, R)` floor makes the arc LARGER than requested, refuting
"realized radius ≤ requested radius" for sub-`1e-6` requests. -/
theorem cornerAt_small_radius_cex :
    ∃ co : Corner, cornerAt (-10, 1) (0, 1) (0, 11) (1 / 10 ^ 7) none = some co ∧
      ¬ co.R ≤ (none : Option ℝ).getD (1 / 10 ^ 7) := by
  refine ⟨_, corner_small_eval, ?_⟩
  norm_num

/-- The mutable fields of the `Alignment` class. -/
structure AlignmentState where
  points : List V
  cumulative : List ℝ
  ips : List V
  cornerRadii : List (Option ℝ)
  defaultFilletRadius : ℝ
  lineStep : ℝ
  arcStep : ℝ

/-- `Alignment.setPolyline`: dedupe (exact) the new points; if fewer than 2
remain, return with the previous polyline untouched, else install the new
points and their chainages. -/
def setPolyline (st : AlignmentState) (newPoints : List V) : AlignmentState :=
  let pts := dedupe newPoints
  if pts.length < 2 then st
  else { st with points := pts, cumulative := cumulativeDistances pts }

/-- `Alignment.ensureCornerRadiiLength`: a fresh table of `n` entries, the
interior entries `1 ≤ i < min(old.length, n) - 1` copied from the old one. -/
def ensureCornerRadiiLength (old : List (Option ℝ)) (n : ℕ) : List (Option ℝ) :=
  (List.range n).map (fun i => if 1 ≤ i ∧ i + 1 < min old.length n then old.getD i none else none)

/-- `Alignment.buildFromIPs`: store the inputs, rebuild, and install the
polyline only when the rebuild has at least 2 points. -/
def buildFromIPs (st : AlignmentState) (ips : List V) (defaultRadius lineStep arcStep : ℝ) :
    AlignmentState :=
  let newRadii := ensureCornerRadiiLength st.cornerRadii ips.length
  let st1 := { st with
    ips := ips
    cornerRadii := newRadii
    defaultFilletRadius := defaultRadius
    lineStep := lineStep
    arcStep := arcStep }
  let built := buildFilletedPolylineFromIPs st1.ips st1.defaultFilletRadius st1.lineStep
    st1.arcStep st1.cornerRadii
  if 2 ≤ built.length then setPolyline st1 built else st1

/-- `Alignment.setDefaultRadius`: floor the radius at `1e-6`, rebuild,
install only when at least 2 points were built. -/
def setDefaultRadius (st : AlignmentState) (r : ℝ) : AlignmentState :=
  let st1 := { st with defaultFilletRadius := max (1 / 10 ^ 6) r }
  let built := buildFilletedPolylineFromIPs st1.ips st1.defaultFilletRadius st1.lineStep
    st1.arcStep st1.cornerRadii
  if 2 ≤ built.length then setPolyline st1 built else st1

/-- `Alignment.moveIP`: out-of-range indices are ignored; otherwise move the
IP, rebuild, and install only when at least 2 points were built. -/
def moveIP (st : AlignmentState) (index : ℕ) (newPos : V) : AlignmentState :=
  if index < st.ips.length then
    let st1 := { st with ips := st.ips.set index newPos }
    let built := buildFilletedPolylineFromIPs st1.ips st1.defaultFilletRadius st1.lineStep
      st1.arcStep st1.cornerRadii
    if 2 ≤ built.length then setPolyline st1 built else st1
  else st

/-- A JS sparse-array assignment `arr[i] = v`: holes are `none`. -/
def setSparse (l : List (Option ℝ)) (i : ℕ) (v : Option ℝ) : List (Option ℝ) :=
  (List.range (max l.length (i + 1))).map (fun j => if j = i then v else l.getD j none)

/-- `Alignment.setCornerRadius`: non-interior indices are ignored; otherwise
store the override (floored at `1e-6`, or cleared), rebuild, and install
only when at least 2 points were built. -/
def setCornerRadius (st : AlignmentState) (index : ℕ) (radius : Option ℝ) : AlignmentState :=
  if 1 ≤ index ∧ index + 1 < st.ips.length then
    let newRadii := setSparse st.cornerRadii index (radius.map (fun r => max (1 / 10 ^ 6) r))
    let st1 := { st with cornerRadii := newRadii }
    let built := buildFilletedPolylineFromIPs st1.ips st1.defaultFilletRadius st1.lineStep
      st1.arcStep st1.cornerRadii
    if 2 ≤ built.length then setPolyline st1 built else st1
  else st

/-- The constructor's default IPs. -/
def defaultIPs : List V := [(-20, -5), (10, -5), (10, 25)]

/-- The `Alignment` constructor: build from the default IPs with radius 10
and unit steps, installing `dedupe(built)` without a length guard. -/
def initAlignment : AlignmentState :=
  let built := buildFilletedPolylineFromIPs defaultIPs 10 1 1 []
  { points := dedupe built
    cumulative := cumulativeDistances (dedupe built)
    ips := defaultIPs
    cornerRadii := []
    defaultFilletRadius := 10
    lineStep := 1
    arcStep := 1 }

/-! ### C9: the centreline always keeps at least two points -/

lemma setPolyline_eq (st : AlignmentState) (newPoints : List V) :
    setPolyline st newPoints
      = if (dedupe newPoints).length < 2 then st
        else { st with points := dedupe newPoints,
                       cumulative := cumulativeDistances (dedupe newPoints) } := rfl

lemma setPolyline_points_ge2 {st : AlignmentState} {newPts : List V}
    (h : 2 ≤ st.points.length) : 2 ≤ (setPolyline st newPts).points.length := by
  rw [setPolyline_eq]
  by_cases hc : (dedupe newPts).length < 2
  · rw [if_pos hc]
    exact h
  · rw [if_neg hc]
    exact not_lt.mp hc

lemma guardInstall_points {st1 : AlignmentState} {built : List V}
    (h : 2 ≤ st1.points.length) :
    2 ≤ (if 2 ≤ built.length then setPolyline st1 built else st1).points.length := by
  by_cases hb : 2 ≤ built.length
  · rw [if_pos hb]
    exact setPolyline_points_ge2 h
  · rw [if_neg hb]
    exact h

lemma cornersFor_default_0 : cornersFor defaultIPs 10 [] 0 = none := by
  rw [cornersFor, if_neg (fun hc => absurd hc.1 (by omega))]

lemma cornersFor_default_1 :
    cornersFor defaultIPs 10 [] 1 = some ⟨(0, -5), (10, 5), (0, 5), 10, true⟩ := by
  rw [cornersFor, if_pos (by norm_num [defaultIPs])]
  exact corner_default_eval

lemma build_default_eq :
    buildFilletedPolylineFromIPs defaultIPs 10 1 1 []
      = dedupeEps (stitchPiece defaultIPs 10 1 1 [] 0
          ++ (stitchPiece defaultIPs 10 1 1 [] 1 ++ [])) := rfl

lemma stitch0_eval :
    stitchPiece defaultIPs 10 1 1 [] 0
      = sampleLineOpen (-20, -5) (0, -5) 1
          ++ arcSamples ⟨(0, -5), (10, 5), (0, 5), 10, true⟩ 1 := by
  have hv : vdist ((-20 : ℝ), (-5 : ℝ)) (0, -5) = 20 := vdist_eval (by norm_num) (by norm_num)
  simp only [stitchPiece]
  rw [show (0 : ℕ) + 1 = 1 from rfl, cornersFor_default_0, cornersFor_default_1,
    show defaultIPs.getD 0 ((0 : ℝ), (0 : ℝ)) = (-20, -5) from rfl]
  simp only [Option.map_none', Option.map_some', Option.getD_none, Option.getD_some]
  rw [hv, if_pos (by norm_num : (1 : ℝ) / 10 ^ 9 < 20)]

lemma range_map_head2 {α : Type} (f : ℕ → α) (k : ℕ) :
    (List.range (k + 2)).map f
      = f 0 :: f 1 :: ((List.range k).map (fun i => i + 1 + 1)).map f := by
  rw [show k + 2 = (k + 1) + 1 from rfl, List.range_succ_eq_map, List.range_succ_eq_map]
  simp [List.map_map, Function.comp]

lemma sampleLineOpen_default_head :
    ∃ t : List V, sampleLineOpen (-20, -5) (0, -5) 1
      = ((-20 : ℝ), (-5 : ℝ)) :: ((-360 / 19 : ℝ), (-5 : ℝ)) :: t := by
  have h20 : vlength ((0 : ℝ) - -20, (-5 : ℝ) - -5) = 20 := by
    apply vlength_eval (by norm_num)
    norm_num
  have hn : max 2 ⌈vlength ((0 : ℝ) - -20, (-5 : ℝ) - -5) / max (1 / 10 ^ 9) 1⌉.toNat = 20 := by
    rw [h20, show max ((1 : ℝ) / 10 ^ 9) 1 = 1 from by rw [max_def]; norm_num, div_one]
    rw [show (20 : ℝ) = ((20 : ℤ) : ℝ) from by norm_num, Int.ceil_intCast]
    rfl
  simp only [sampleLineOpen]
  rw [hn]
  rw [show (20 : ℕ) - 1 = 17 + 2 from rfl, range_map_head2]
  rw [show ((-20 : ℝ) + ((0 : ℝ) - -20) * ((((0 : ℕ)) : ℝ) / (((20 : ℕ) : ℝ) - 1)),
        (-5 : ℝ) + ((-5 : ℝ) - -5) * ((((0 : ℕ)) : ℝ) / (((20 : ℕ) : ℝ) - 1)))
      = ((-20 : ℝ), (-5 : ℝ)) from by norm_num]
  rw [show ((-20 : ℝ) + ((0 : ℝ) - -20) * ((((1 : ℕ)) : ℝ) / (((20 : ℕ) : ℝ) - 1)),
        (-5 : ℝ) + ((-5 : ℝ) - -5) * ((((1 : ℕ)) : ℝ) / (((20 : ℕ) : ℝ) - 1)))
      = ((-360 / 19 : ℝ), (-5 : ℝ)) from by norm_num]
  exact ⟨_, rfl⟩

lemma dedupeEps_cons2 {x y : V} {l : List V} (h : ¬ approxEqual y x (1 / 10 ^ 9)) :
    dedupeEps (x :: y :: l) = x :: y :: dedupeEpsAux (1 / 10 ^ 9) y l := by
  simp only [dedupeEps, dedupeEpsAux, if_neg h, List.singleton_append]

lemma dedupe_cons2_len {x y : V} {l : List V} (h : y ≠ x) :
    2 ≤ (dedupe (x :: y :: l)).length := by
  simp only [dedupe, dedupeAux, if_neg h, List.singleton_append, List.length_cons]
  omega

lemma init_points_ge2 : 2 ≤ initAlignment.points.length := by
  obtain ⟨t, ht⟩ := sampleLineOpen_default_head
  have hb : buildFilletedPolylineFromIPs defaultIPs 10 1 1 []
      = dedupeEps (((-20 : ℝ), (-5 : ℝ)) :: ((-360 / 19 : ℝ), (-5 : ℝ))
          :: (t ++ arcSamples ⟨(0, -5), (10, 5), (0, 5), 10, true⟩ 1
            ++ (stitchPiece defaultIPs 10 1 1 [] 1 ++ []))) := by
    rw [build_default_eq, stitch0_eval, ht]
    simp [List.append_assoc]
  have hne : ¬ approxEqual ((-360 / 19 : ℝ), (-5 : ℝ)) ((-20 : ℝ), (-5 : ℝ)) (1 / 10 ^ 9) := by
    norm_num [approxEqual, abs_le]
  show 2 ≤ (dedupe (buildFilletedPolylineFromIPs defaultIPs 10 1 1 [])).length
  rw [hb, dedupeEps_cons2 hne]
  exact dedupe_cons2_len (by norm_num [Prod.ext_iff])

/-- C9: the `Alignment` centreline always has at least 2 points. The
constructor's default build has at least 2; `setPolyline` refuses inputs
that dedupe below 2 points (leaving the previous centreline unchanged) and
every rebuild-based mutation (`buildFromIPs`, `setDefaultRadius`, `moveIP`,
`setCornerRadius`) installs the rebuilt polyline only when it has at least
2 points, so each operation preserves the invariant. -/
theorem alignment_points_at_least_two :
    2 ≤ initAlignment.points.length ∧
    (∀ (st : AlignmentState) (newPts : List V), 2 ≤ st.points.length →
        2 ≤ (setPolyline st newPts).points.length) ∧
    (∀ (st : AlignmentState) (newPts : List V), (dedupe newPts).length < 2 →
        setPolyline st newPts = st) ∧
    (∀ (st : AlignmentState) (ips : List V) (r ls astep : ℝ), 2 ≤ st.points.length →
        2 ≤ (buildFromIPs st ips r ls astep).points.length) ∧
    (∀ (st : AlignmentState) (r : ℝ), 2 ≤ st.points.length →
        2 ≤ (setDefaultRadius st r).points.length) ∧
    (∀ (st : AlignmentState) (i : ℕ) (p : V), 2 ≤ st.points.length →
        2 ≤ (moveIP st i p).points.length) ∧
    (∀ (st : AlignmentState) (i : ℕ) (r : Option ℝ), 2 ≤ st.points.length →
        2 ≤ (setCornerRadius st i r).points.length) := by
  refine ⟨init_points_ge2, ?_, ?_, ?_, ?_, ?_, ?_⟩
  · intro st newPts h
    exact setPolyline_points_ge2 h
  · intro st newPts h
    rw [setPolyline_eq, if_pos h]
  · intro st ips r ls astep h
    simp only [buildFromIPs]
    exact guardInstall_points h
  · intro st r h
    simp only [setDefaultRadius]
    exact guardInstall_points h
  · intro st i p h
    simp only [moveIP]
    by_cases hi : i < st.ips.length
    · rw [if_pos hi]
      exact guardInstall_points h
    · rw [if_neg hi]
      exact h
  · intro st i r h
    simp only [setCornerRadius]
    by_cases hi : 1 ≤ i ∧ i + 1 < st.ips.length
    · rw [if_pos hi]
      exact guardInstall_points h
    · rw [if_neg hi]
      exact h

end

end Civil
